import Mathlib

/-!
# RocketCodePT: the login-attempt guard, tokens and resource handlers

A shallow embedding of `src/services/auth.service.js` (`LoginAttemptService`,
`AuthService`), `src/middlewares/auth.middleware.js` (`checkLoginLock`,
`authenticateToken`), `src/controllers/auth.controller.js` (`AuthController`),
`src/repositories/index.js` (`BaseRepository`, `UserRepository`), the get, update,
delete and list-issues handlers of `src/controllers/project.controller.js` and all
handlers of `src/controllers/issue.controller.js`.

* The module-level `loginAttempts` Map is threaded through every operation as
  an explicit `Guard` value; an operation returns its result together with the
  Map it leaves behind.
* Every `Date.now()` read is an explicit `Int` argument (epoch milliseconds),
  one argument per read, in the order the source performs the reads.
* JavaScript numbers that hold counts and timestamps are integers far below
  `2^53`, so they are modelled as `Int` with exact arithmetic.
* Dependencies outside the repository are parameters: bcrypt and the user store in
  `AuthEnv` and `RegisterEnv`, the `jsonwebtoken` module in `JwtLib` (with
  `jsonwebtoken`, a model of its whole-second clock, for the round trip), the repository
  calls of the resource handlers in `Store`, the outcome of the classification
  `fetch` in `ClassifyOutcome`. `Db.store` instantiates the lookups with
  `BaseRepository.findById` over explicit tables.
* A resource handler returns its response together with the list of writes it
  issued to the record store.
* A thrown exception is the `.error` of an `Except`; a handler's `catch` block is
  the `.error` branch of the call that threw.
-/

/-- One value of the `loginAttempts` Map: the object `{ count, lockUntil }`. -/
structure Attempt where
  count : Int
  lockUntil : Int
deriving DecidableEq, Repr

/-- The `loginAttempts` Map: email ↦ attempt record, `none` when the key is absent. -/
abbrev Guard := String → Option Attempt

namespace Guard

/-- The Map produced by `new Map()`. -/
def empty : Guard := fun _ => none

/-- The Map after `loginAttempts.set(email, attempt)`. -/
def set (g : Guard) (email : String) (attempt : Attempt) : Guard :=
  fun k => if k = email then some attempt else g k

/-- The Map after `loginAttempts.delete(email)`. -/
def delete (g : Guard) (email : String) : Guard :=
  fun k => if k = email then none else g k

end Guard

/-- The object literal returned by `recordFailedAttempt` and `getAttemptInfo`.
`lockTime` is `none` where the source's literal has no `lockTime` property. -/
structure AttemptInfo where
  attempts : Int
  remainingAttempts : Int
  isLocked : Bool
  lockTime : Option Int
deriving DecidableEq, Repr

namespace LoginAttemptService

/-- The constant `static MAX_ATTEMPTS = 3`. -/
def MAX_ATTEMPTS : Int := 3

/-- The constant `static LOCKOUT_DURATION = 3 * 60 * 1000`. -/
def LOCKOUT_DURATION : Int := 3 * 60 * 1000

/-- The method `isLocked(email)`; `now` is its `Date.now()` read. -/
def isLocked (g : Guard) (email : String) (now : Int) : Bool × Guard :=
  match g email with
  | none => (false, g)
  | some attempt =>
    if now - attempt.lockUntil > 0 then
      (false, g.delete email)
    else
      (true, g)

/-- The method `getRemainingLockTime(email)`; it never writes the Map. -/
def getRemainingLockTime (g : Guard) (email : String) (now : Int) : Int :=
  match g email with
  | none => 0
  | some attempt =>
    let remaining := attempt.lockUntil - now
    max 0 remaining

/-- The method `recordFailedAttempt(email)`; `now` is the `Date.now()` read made
when the threshold test succeeds. -/
def recordFailedAttempt (g : Guard) (email : String) (now : Int) : AttemptInfo × Guard :=
  let attempt := (g email).getD { count := 0, lockUntil := 0 }
  let count := attempt.count + 1
  let lockUntil :=
    if count ≥ MAX_ATTEMPTS then now + LOCKOUT_DURATION else attempt.lockUntil
  ({ attempts := count
     remainingAttempts := max 0 (MAX_ATTEMPTS - count)
     isLocked := decide (count ≥ MAX_ATTEMPTS)
     lockTime := some (if count ≥ MAX_ATTEMPTS then LOCKOUT_DURATION else 0) },
   g.set email { count := count, lockUntil := lockUntil })

/-- The method `recordSuccessfulAttempt(email)`. -/
def recordSuccessfulAttempt (g : Guard) (email : String) : Guard :=
  g.delete email

/-- The method `getAttemptInfo(email)`. `now` is the clock read inside the nested
`isLocked` call and `now2` the one inside `getRemainingLockTime`; the count comes
from the object fetched before `isLocked` ran. -/
def getAttemptInfo (g : Guard) (email : String) (now now2 : Int) : AttemptInfo × Guard :=
  match g email with
  | none =>
    ({ attempts := 0, remainingAttempts := MAX_ATTEMPTS, isLocked := false, lockTime := none }, g)
  | some attempt =>
    let r := isLocked g email now
    ({ attempts := attempt.count
       remainingAttempts := max 0 (MAX_ATTEMPTS - attempt.count)
       isLocked := r.1
       lockTime := some (if r.1 then getRemainingLockTime r.2 email now2 else 0) },
     r.2)

end LoginAttemptService

/-- A row of the `users` table as built by `new User(data)`. -/
structure User where
  id : String
  email : String
  password : String
  name : String
  role : String
  created_at : String
  updated_at : String
deriving DecidableEq, Repr

/-- The object `userWithoutPassword`: every property of a `User` except `password`. -/
structure PublicUser where
  id : String
  email : String
  name : String
  role : String
  created_at : String
  updated_at : String
deriving DecidableEq, Repr

/-- The destructuring `const { password: _, ...userWithoutPassword } = user`. -/
def User.withoutPassword (user : User) : PublicUser :=
  { id := user.id, email := user.email, name := user.name, role := user.role,
    created_at := user.created_at, updated_at := user.updated_at }

/-- The body of a `POST /login` request. Both properties are strings; the empty
string is the falsy one. -/
structure LoginRequest where
  email : String
  password : String
deriving DecidableEq, Repr

/-- The JSON bodies sent by `checkLoginLock`, `authenticateToken` and the handlers of
`AuthController`. -/
inductive Body where
  | error (error : String)
  | locked (error : String) (lockTimeRemaining : Int)
  | invalidCredentials (error : String) (info : AttemptInfo)
  | loginSuccess (message : String) (token : String) (user : PublicUser)
  | registered (message : String) (token : String) (user : PublicUser)
  | profile (user : PublicUser)
deriving DecidableEq, Repr

/-- An HTTP response: `res.status(status).json(body)`; `res.json(body)` alone sends 200. -/
structure Response where
  status : Nat
  body : Body
deriving DecidableEq, Repr

/-- The collaborators of `AuthController.login` that live outside the guard:
`userRepository.findByEmail` (which may throw), `AuthService.comparePassword`
(bcrypt) and `AuthService.generateToken` (jsonwebtoken). -/
structure AuthEnv where
  findByEmail : String → Except String (Option User)
  comparePassword : String → String → Bool
  generateToken : User → String

/-- The expression `Math.ceil(x / d)` for an integer `x` and a positive integer `d`. -/
def ceilDiv (x d : Int) : Int := -((-x) / d)

/-- The middleware `checkLoginLock`. The first component is the response it sends,
or `none` when it calls `next()`. `now` is the clock read of `isLocked`, `now2`
the one of `getRemainingLockTime`. -/
def checkLoginLock (g : Guard) (req : LoginRequest) (now now2 : Int) : Option Response × Guard :=
  let email := req.email
  let r := LoginAttemptService.isLocked g email now
  if r.1 then
    let remainingTime := ceilDiv (LoginAttemptService.getRemainingLockTime r.2 email now2) 1000
    (some { status := 429
            body := .locked "Account temporarily locked due to too many failed attempts"
                      remainingTime },
     r.2)
  else
    (none, r.2)

namespace AuthController

/-- The handler `AuthController.login`; `now` is the clock read of the
`recordFailedAttempt` call it may make. -/
def login (env : AuthEnv) (g : Guard) (req : LoginRequest) (now : Int) : Response × Guard :=
  let email := req.email
  let password := req.password
  if email = "" ∨ password = "" then
    ({ status := 400, body := .error "Email and password are required" }, g)
  else
    match env.findByEmail email with
    | .error _ => ({ status := 500, body := .error "Internal server error" }, g)
    | .ok none =>
      let r := LoginAttemptService.recordFailedAttempt g email now
      ({ status := 401, body := .invalidCredentials "Invalid credentials" r.1 }, r.2)
    | .ok (some user) =>
      let isPasswordValid := env.comparePassword password user.password
      if !isPasswordValid then
        let r := LoginAttemptService.recordFailedAttempt g email now
        ({ status := 401, body := .invalidCredentials "Invalid credentials" r.1 }, r.2)
      else
        let g1 := LoginAttemptService.recordSuccessfulAttempt g email
        let token := env.generateToken user
        ({ status := 200
           body := .loginSuccess "Login successful" token user.withoutPassword },
         g1)

end AuthController

/-- The route `router.post('/login', checkLoginLock, AuthController.login)`:
the handler runs only when the middleware called `next()`. -/
def loginRoute (env : AuthEnv) (g : Guard) (req : LoginRequest) (tLock tRemaining tRecord : Int) :
    Response × Guard :=
  match checkLoginLock g req tLock tRemaining with
  | (some res, g1) => (res, g1)
  | (none, g1) => AuthController.login env g1 req tRecord

/-- A sequence of login requests handled one after another, each with a single
clock value for all its reads; the responses come back in order. -/
def loginSequence (env : AuthEnv) : Guard → List (LoginRequest × Int) → List Response × Guard
  | g, [] => ([], g)
  | g, (req, t) :: rest =>
    let r := loginRoute env g req t t t
    let rs := loginSequence env r.2 rest
    (r.1 :: rs.1, rs.2)

/-- The count stored for `email`, `0` when the Map has no record for it. -/
def Guard.count (g : Guard) (email : String) : Int :=
  match g email with
  | none => 0
  | some attempt => attempt.count

/-- A store holding the single user `a@x.com`, whose password check accepts
exactly the plaintext equal to the stored value. -/
def demoEnv : AuthEnv where
  findByEmail := fun email =>
    if email = "a@x.com" then
      .ok (some { id := "u1", email := "a@x.com", password := "s3cret", name := "A",
                  role := "user", created_at := "", updated_at := "" })
    else .ok none
  comparePassword := fun password hashed => password == hashed
  generateToken := fun user => "token-" ++ user.id

/-! ## Runs of guard calls -/

/-- One call of a `LoginAttemptService` method, with its argument and the clock
values it reads. -/
inductive GuardCall where
  | isLocked (email : String) (now : Int)
  | getRemainingLockTime (email : String) (now : Int)
  | recordFailedAttempt (email : String) (now : Int)
  | recordSuccessfulAttempt (email : String)
  | getAttemptInfo (email : String) (now now2 : Int)
deriving DecidableEq, Repr

namespace GuardCall

/-- The Map a call leaves behind. `getRemainingLockTime` has no `set` or `delete`
in its body, so it hands the Map back as it got it. -/
def apply (g : Guard) : GuardCall → Guard
  | .isLocked email now => (LoginAttemptService.isLocked g email now).2
  | .getRemainingLockTime _ _ => g
  | .recordFailedAttempt email now => (LoginAttemptService.recordFailedAttempt g email now).2
  | .recordSuccessfulAttempt email => LoginAttemptService.recordSuccessfulAttempt g email
  | .getAttemptInfo email now now2 => (LoginAttemptService.getAttemptInfo g email now now2).2

/-- The identity a call is made for. -/
def email : GuardCall → String
  | .isLocked email _ => email
  | .getRemainingLockTime email _ => email
  | .recordFailedAttempt email _ => email
  | .recordSuccessfulAttempt email => email
  | .getAttemptInfo email _ _ => email

/-- Every clock value read by the call is non-negative. -/
def nonneg : GuardCall → Bool
  | .isLocked _ now => decide (0 ≤ now)
  | .getRemainingLockTime _ now => decide (0 ≤ now)
  | .recordFailedAttempt _ now => decide (0 ≤ now)
  | .recordSuccessfulAttempt _ => true
  | .getAttemptInfo _ now now2 => decide (0 ≤ now) && decide (0 ≤ now2)

end GuardCall

/-- The Map after a sequence of calls, made in order. -/
def runCalls (g : Guard) (calls : List GuardCall) : Guard :=
  calls.foldl GuardCall.apply g

/-- The record invariant of the data model: `count ≥ 1`, and `count ≥ MAX_ATTEMPTS`
exactly when `lockUntil` is non-zero. -/
def Attempt.WellFormed (a : Attempt) : Prop :=
  a.count ≥ 1 ∧ (a.count ≥ LoginAttemptService.MAX_ATTEMPTS ↔ a.lockUntil ≠ 0)

/-- The credential check of `AuthController.login` fails: no user has the email,
or the stored password does not match. -/
def failsCredentialCheck (env : AuthEnv) (req : LoginRequest) : Bool :=
  match env.findByEmail req.email with
  | .error _ => false
  | .ok none => true
  | .ok (some user) => !env.comparePassword req.password user.password

/-- The credential check of `AuthController.login` succeeds for the stored `user`. -/
def passesCredentialCheck (env : AuthEnv) (req : LoginRequest) (user : User) : Prop :=
  env.findByEmail req.email = .ok (some user) ∧
    env.comparePassword req.password user.password = true

/-- A sequence of login requests handled one after another through the route, each
with its own three clock reads; the responses come back in order. -/
def loginRun (env : AuthEnv) : Guard → List (LoginRequest × Int × Int × Int) →
    List Response × Guard
  | g, [] => ([], g)
  | g, (req, tLock, tRemaining, tRecord) :: rest =>
    let r := loginRoute env g req tLock tRemaining tRecord
    let rs := loginRun env r.2 rest
    (r.1 :: rs.1, rs.2)

/-- A Map in which `a@x.com` has been locked until 181000. -/
def lockedGuard : Guard := Guard.empty.set "a@x.com" ⟨3, 181000⟩

/-! ## Registration and profile -/

/-- The body of a `POST /register` request; the empty string is the falsy one. -/
structure RegisterRequest where
  email : String
  password : String
  name : String
deriving DecidableEq, Repr

/-- The collaborators of `AuthController.register`: `userRepository.findByEmail`,
`AuthService.hashPassword` (bcrypt, which may reject),
`userRepository.create({ email, password, name })` with its arguments in that order,
and `AuthService.generateToken`. -/
structure RegisterEnv where
  findByEmail : String → Except String (Option User)
  hashPassword : String → Except String String
  create : String → String → String → Except String User
  generateToken : User → String

namespace AuthController

/-- The handler `AuthController.register`. -/
def register (env : RegisterEnv) (req : RegisterRequest) : Response :=
  let email := req.email
  let password := req.password
  let name := req.name
  if email = "" ∨ password = "" ∨ name = "" then
    { status := 400, body := .error "Email, password, and name are required" }
  else
    match env.findByEmail email with
    | .error _ => { status := 500, body := .error "Internal server error" }
    | .ok (some _) => { status := 409, body := .error "User already exists" }
    | .ok none =>
      match env.hashPassword password with
      | .error _ => { status := 500, body := .error "Internal server error" }
      | .ok hashedPassword =>
        match env.create email hashedPassword name with
        | .error _ => { status := 500, body := .error "Internal server error" }
        | .ok newUser =>
          let token := env.generateToken newUser
          { status := 201
            body := .registered "User registered successfully" token newUser.withoutPassword }

/-- The handler `AuthController.getProfile`, run on the `req.user` that
`authenticateToken` attached. -/
def getProfile (user : User) : Response :=
  { status := 200, body := .profile user.withoutPassword }

end AuthController

/-- The `user` property of a response body, when it has one. -/
def Body.user? : Body → Option PublicUser
  | .loginSuccess _ _ user => some user
  | .registered _ _ user => some user
  | .profile user => some user
  | _ => none

/-- The own enumerable properties of a `User` object, in the order the constructor
assigns them. -/
def User.properties (u : User) : List (String × String) :=
  [("id", u.id), ("email", u.email), ("password", u.password), ("name", u.name),
   ("role", u.role), ("created_at", u.created_at), ("updated_at", u.updated_at)]

/-- The own enumerable properties of a `userWithoutPassword` object. -/
def PublicUser.properties (u : PublicUser) : List (String × String) :=
  [("id", u.id), ("email", u.email), ("name", u.name),
   ("role", u.role), ("created_at", u.created_at), ("updated_at", u.updated_at)]

/-- The rest pattern `const { [key]: _, ...rest } = obj` on a property list. -/
def omitProperty (key : String) (props : List (String × String)) : List (String × String) :=
  props.filter (fun p => p.1 ≠ key)

/-- A registration store with no users, a hash that prefixes `h:`, and a `create`
that returns the inserted row with the id `u2`. -/
def demoRegisterEnv : RegisterEnv where
  findByEmail := fun _ => .ok none
  hashPassword := fun password => .ok ("h:" ++ password)
  create := fun email password name =>
    .ok { id := "u2", email := email, password := password, name := name, role := "user",
          created_at := "t0", updated_at := "t0" }
  generateToken := fun user => "token-" ++ user.id

/-! ## Tokens -/

/-- The object `{ id, email, role }` that `generateToken` hands to `jwt.sign`. -/
structure TokenClaims where
  id : String
  email : String
  role : String
deriving DecidableEq, Repr

/-- The object `jwt.verify` returns: the signed claims with the `iat` and `exp`
stamps the library added. -/
structure DecodedToken where
  id : String
  email : String
  role : String
  iat : Int
  exp : Int
deriving DecidableEq, Repr

/-- The reasons for which `jwt.verify` throws. -/
inductive JwtError where
  | invalidSignature
  | expired
  | malformed
deriving DecidableEq, Repr

/-- The `jsonwebtoken` module, a dependency outside the repository, taken as a
parameter. `sign claims secret expiresIn now` is `jwt.sign(claims, secret,
{ expiresIn })` evaluated at the clock value `now`; `verify token secret now` is
`jwt.verify(token, secret)` evaluated at `now`, with a throw as `.error`. The type
`τ` is the type of tokens. -/
structure JwtLib (τ : Type) where
  sign : TokenClaims → String → String → Int → τ
  verify : τ → String → Int → Except JwtError DecodedToken

namespace AuthService

/-- The constant `JWT_SECRET = process.env.JWT_SECRET || 'fallback-secret-for-development'`;
`envSecret` is the environment variable, `none` when it is not set. -/
def JWT_SECRET (envSecret : Option String) : String :=
  match envSecret with
  | none => "fallback-secret-for-development"
  | some s => if s = "" then "fallback-secret-for-development" else s

/-- The method `generateToken(user)`, called at the clock value `now`. -/
def generateToken {τ : Type} (jwt : JwtLib τ) (envSecret : Option String) (now : Int)
    (user : User) : τ :=
  jwt.sign { id := user.id, email := user.email, role := user.role }
    (JWT_SECRET envSecret) "24h" now

/-- The method `verifyToken(token)`, called at the clock value `now`; the thrown
`new Error('Invalid token')` is the `.error` carrying its message. -/
def verifyToken {τ : Type} (jwt : JwtLib τ) (envSecret : Option String) (now : Int)
    (token : τ) : Except String DecodedToken :=
  match jwt.verify token (JWT_SECRET envSecret) now with
  | .ok decoded => .ok decoded
  | .error _ => .error "Invalid token"

end AuthService

/-- The pieces of `s.split(' ')`, on the characters of `s`. -/
def splitSpace : List Char → List (List Char)
  | [] => [[]]
  | c :: cs =>
    if c = ' ' then [] :: splitSpace cs
    else
      match splitSpace cs with
      | [] => [[c]]
      | w :: ws => (c :: w) :: ws

/-- The expression `authHeader && authHeader.split(' ')[1]`, where `none` stands for
`undefined` (a missing header, or no second piece). -/
def headerToken (authHeader : Option String) : Option String :=
  match authHeader with
  | none => none
  | some h =>
    if h = "" then some ""
    else ((splitSpace h.data).map String.mk)[1]?

/-- What `authenticateToken` does with a request: it sends a response, or it sets
`req.user` and calls `next()`. -/
inductive AuthOutcome where
  | respond (res : Response)
  | next (user : User)
deriving DecidableEq, Repr

/-- The middleware `authenticateToken`. `authHeader` is `req.headers['authorization']`,
`findById` is `userRepository.findById` (a throw as `.error`, `null` as `.ok none`),
`now` the clock value at which the token is verified. -/
def authenticateToken (jwt : JwtLib String) (envSecret : Option String)
    (findById : String → Except String (Option User)) (authHeader : Option String)
    (now : Int) : AuthOutcome :=
  let token := headerToken authHeader
  match token with
  | none => .respond { status := 401, body := .error "Access token required" }
  | some token =>
    if token = "" then
      .respond { status := 401, body := .error "Access token required" }
    else
      match AuthService.verifyToken jwt envSecret now token with
      | .error _ => .respond { status := 401, body := .error "Invalid token" }
      | .ok decoded =>
        match findById decoded.id with
        | .error _ => .respond { status := 401, body := .error "Invalid token" }
        | .ok none =>
          .respond { status := 401, body := .error "Invalid token - user not found" }
        | .ok (some user) => .next user

/-- A symbolic token: what was signed, with which key, and its validity window;
`intact = false` stands for a string that does not parse as a token. -/
structure SymToken where
  claims : TokenClaims
  key : String
  iat : Int
  exp : Int
  intact : Bool
deriving DecidableEq, Repr

/-- A symbolic instance of the `jsonwebtoken` module on `SymToken` that compares the
clock value with `exp` as it stands, without rounding to seconds: `verify` checks
that the token parses, then the key, then the expiry. The model with the module's
whole-second clock is `jsonwebtoken` below. -/
def symJwt : JwtLib SymToken where
  sign := fun claims secret expiresIn now =>
    { claims := claims, key := secret, iat := now,
      exp := now + (if expiresIn = "24h" then 24 * 60 * 60 * 1000 else 0), intact := true }
  verify := fun token secret now =>
    if !token.intact then .error .malformed
    else if token.key ≠ secret then .error .invalidSignature
    else if now ≥ token.exp then .error .expired
    else .ok { id := token.claims.id, email := token.claims.email, role := token.claims.role,
               iat := token.iat, exp := token.exp }

/-- A model of the `jsonwebtoken` module (a dependency of the repository, outside the
sources) on symbolic tokens, with the clock the module uses. `sign` stamps
`iat = Math.floor(now / 1000)` and, for `expiresIn: '24h'`, `exp = iat + 86400`, both
in seconds. `verify` rejects a token that does not parse, then a token signed with
another secret, then a token for which `Math.floor(now / 1000) >= exp`, and
otherwise returns the signed claims with their `iat` and `exp`. -/
def jsonwebtoken : JwtLib SymToken where
  sign := fun claims secret expiresIn now =>
    { claims := claims, key := secret, iat := now / 1000,
      exp := now / 1000 + (if expiresIn = "24h" then 86400 else 0), intact := true }
  verify := fun token secret now =>
    if !token.intact then .error .malformed
    else if token.key ≠ secret then .error .invalidSignature
    else if now / 1000 ≥ token.exp then .error .expired
    else .ok { id := token.claims.id, email := token.claims.email, role := token.claims.role,
               iat := token.iat, exp := token.exp }

/-- An instance of the `jsonwebtoken` module on strings that accepts the one token
`tok-u1`, issued to the user `u1`. -/
def demoJwt : JwtLib String where
  sign := fun _ _ _ _ => "tok-u1"
  verify := fun token _ _ =>
    if token = "tok-u1" then
      .ok { id := "u1", email := "a@x.com", role := "user", iat := 0, exp := 86400000 }
    else .error .malformed

/-- A `userRepository.findById` that knows the single user `u1`. -/
def demoFindById (id : String) : Except String (Option User) :=
  if id = "u1" then
    .ok (some { id := "u1", email := "a@x.com", password := "s3cret", name := "A",
                role := "user", created_at := "", updated_at := "" })
  else .error "PGRST116"

/-! ## The record store -/

/-- A row of the `projects` table as built by `new Project(data)`. -/
structure Project where
  id : String
  name : String
  description : String
  owner_id : String
  status : String
  created_at : String
  updated_at : String
deriving DecidableEq, Repr

/-- A row of the `issues` table as built by `new Issue(data)`; `assignee_id` is
`none` when the column is `null`. -/
structure Issue where
  id : String
  title : String
  description : String
  project_id : String
  assignee_id : Option String
  reporter_id : String
  status : String
  priority : String
  tags : List String
  created_at : String
  updated_at : String
deriving DecidableEq, Repr

/-- The `error` object of a supabase reply, or a thrown JavaScript error, by its code. -/
structure DbError where
  code : String
deriving DecidableEq, Repr

/-- The object `{ data, error }` a supabase query resolves to. -/
structure QueryResult (α : Type) where
  data : Option α
  error : Option DbError

/-- The reply of a supabase query ending in `.single()`, given the rows the filters
select. The client (`config/database.js` and the supabase library) is outside the
sources; its reply follows the PostgREST rule that `UserRepository.findByEmail`
handles: the row when exactly one row is selected, otherwise `data: null` with an
error whose code is `PGRST116`. -/
def single {α : Type} (rows : List α) : QueryResult α :=
  match rows with
  | [row] => { data := some row, error := none }
  | _ => { data := none, error := some { code := "PGRST116" } }

namespace BaseRepository

/-- The method `findById(id)` on a table whose rows have the id `idOf row`:
`if (error) throw error; return this.model.fromDatabase(data)`. A throw is `.error`;
the result is never `null`, so `.ok` always carries `some`. -/
def findById {α : Type} (table : List α) (idOf : α → String) (id : String) :
    Except DbError (Option α) :=
  let r := single (table.filter (fun row => idOf row = id))
  match r.error with
  | some error => .error error
  | none =>
    match r.data with
    | some data => .ok (some data)
    | none => .error { code := "TypeError" }

/-- The method `update(id, data)`: the selected rows are rewritten by `change` and
the reply ends in `.single()`. -/
def update {α : Type} (table : List α) (idOf : α → String) (change : α → α) (id : String) :
    Except DbError α :=
  let r := single ((table.filter (fun row => idOf row = id)).map change)
  match r.error with
  | some error => .error error
  | none =>
    match r.data with
    | some data => .ok data
    | none => .error { code := "TypeError" }

end BaseRepository

namespace UserRepository

/-- The method `findByEmail(email)`:
`if (error && error.code !== 'PGRST116') throw error; return data ? fromDatabase(data) : null`. -/
def findByEmail (users : List User) (email : String) : Except DbError (Option User) :=
  let r := single (users.filter (fun u => u.email = email))
  match r.error with
  | some error =>
    if error.code ≠ "PGRST116" then .error error
    else
      match r.data with
      | some data => .ok (some data)
      | none => .ok none
  | none =>
    match r.data with
    | some data => .ok (some data)
    | none => .ok none

end UserRepository

/-- The expression `x || fallback` on an optional string: `undefined` and the empty
string are the falsy values. -/
def orDefault (x : Option String) (fallback : String) : String :=
  match x with
  | none => fallback
  | some s => if s = "" then fallback else s

/-- The body of a `PUT /projects/:id` request; `none` is `undefined`. -/
structure ProjectUpdateRequest where
  name : Option String
  description : Option String
  status : Option String
deriving DecidableEq, Repr

/-- The object `ProjectController.update` passes to `projectRepository.update`. -/
structure ProjectChanges where
  name : String
  description : String
  status : String
deriving DecidableEq, Repr

/-- The body of a `PUT /issues/:id` request; `none` is `undefined`, and
`assignee_id = some none` is an explicit `null`. -/
structure IssueUpdateRequest where
  title : Option String
  description : Option String
  status : Option String
  priority : Option String
  assignee_id : Option (Option String)
  tags : Option (List String)
deriving DecidableEq, Repr

/-- The object `IssueController.update` passes to `issueRepository.update`. -/
structure IssueChanges where
  title : String
  description : String
  status : String
  priority : String
  assignee_id : Option String
  tags : List String
deriving DecidableEq, Repr

/-- The object `IssueController.create` passes to `issueRepository.create`. -/
structure IssueData where
  title : String
  description : String
  project_id : String
  assignee_id : Option String
  reporter_id : String
  priority : String
  tags : List String
deriving DecidableEq, Repr

/-- A write issued to the record store. -/
inductive StoreWrite where
  | updateProject (id : String) (changes : ProjectChanges)
  | deleteProject (id : String)
  | updateIssue (id : String) (changes : IssueChanges)
  | deleteIssue (id : String)
  | createIssue (data : IssueData)
deriving DecidableEq, Repr

/-- The repository calls made by `ProjectController` and `IssueController`, each with
its outcome: a throw is `.error`, a `null` result is `.ok none`. -/
structure Store where
  findProject : String → Except DbError (Option Project)
  findIssue : String → Except DbError (Option Issue)
  issuesByProject : String → Except DbError (List Issue)
  updateProject : String → ProjectChanges → Except DbError Project
  deleteProject : String → Except DbError Bool
  updateIssue : String → IssueChanges → Except DbError Issue
  deleteIssue : String → Except DbError Bool
  createIssue : IssueData → Except DbError Issue
  issuesByAssignee : String → Except DbError (List Issue)
  allIssues : Except DbError (List Issue)

/-- The tables behind the repositories. -/
structure Db where
  users : List User
  projects : List Project
  issues : List Issue

/-- The columns `Project.toDatabase` writes on an update. -/
def Project.change (changes : ProjectChanges) (p : Project) : Project :=
  { p with name := changes.name, description := changes.description,
           status := orDefault (some changes.status) "active" }

/-- The columns `Issue.toDatabase` writes on an update. -/
def Issue.change (changes : IssueChanges) (i : Issue) : Issue :=
  { i with title := changes.title, description := changes.description,
           assignee_id := changes.assignee_id,
           status := orDefault (some changes.status) "todo",
           priority := orDefault (some changes.priority) "medium",
           tags := changes.tags }

/-- The row an insert of `Issue.toDatabase(data)` produces. The id and the time
stamps are the database's own; `status` is absent from the data, so it is `'todo'`. -/
def Issue.inserted (data : IssueData) : Issue :=
  { id := "new-issue", title := data.title, description := data.description,
    project_id := data.project_id, assignee_id := data.assignee_id,
    reporter_id := data.reporter_id, status := "todo",
    priority := orDefault (some data.priority) "medium", tags := data.tags,
    created_at := "", updated_at := "" }

/-- The repositories of the controllers, reading the tables of `db` through the
methods of `BaseRepository`. -/
def Db.store (db : Db) : Store where
  findProject := BaseRepository.findById db.projects Project.id
  findIssue := BaseRepository.findById db.issues Issue.id
  issuesByProject := fun projectId => .ok (db.issues.filter (fun i => i.project_id = projectId))
  updateProject := fun id changes =>
    BaseRepository.update db.projects Project.id (Project.change changes) id
  deleteProject := fun _ => .ok true
  updateIssue := fun id changes =>
    BaseRepository.update db.issues Issue.id (Issue.change changes) id
  deleteIssue := fun _ => .ok true
  createIssue := fun data => .ok (Issue.inserted data)
  issuesByAssignee := fun assigneeId =>
    .ok (db.issues.filter (fun i => i.assignee_id = some assigneeId))
  allIssues := .ok db.issues

/-- The JSON bodies sent by `ProjectController` and `IssueController`. -/
inductive ApiBody where
  | error (error : String)
  | message (message : String)
  | project (project : Project)
  | issue (issue : Issue)
  | issues (issues : List Issue)
deriving DecidableEq, Repr

/-- An HTTP response of a resource handler. -/
structure ApiResponse where
  status : Nat
  body : ApiBody
deriving DecidableEq, Repr

/-! ## Resource handlers

Each handler takes the repositories, the `req.user` attached by
`authenticateToken` and its request data, and returns the response together with
the writes it issued to the record store, in order. The `catch` block of a handler
is the `.error` branch of each repository call. -/

namespace ProjectController

/-- The handler `ProjectController.getById`. -/
def getById (store : Store) (user : User) (id : String) : ApiResponse × List StoreWrite :=
  match store.findProject id with
  | .error _ => ({ status := 500, body := .error "Internal server error" }, [])
  | .ok none => ({ status := 404, body := .error "Project not found" }, [])
  | .ok (some project) =>
    if project.owner_id ≠ user.id then
      ({ status := 403, body := .error "Access denied" }, [])
    else
      ({ status := 200, body := .project project }, [])

/-- The handler `ProjectController.update`. -/
def update (store : Store) (user : User) (id : String) (body : ProjectUpdateRequest) :
    ApiResponse × List StoreWrite :=
  match store.findProject id with
  | .error _ => ({ status := 500, body := .error "Internal server error" }, [])
  | .ok none => ({ status := 404, body := .error "Project not found" }, [])
  | .ok (some existingProject) =>
    if existingProject.owner_id ≠ user.id then
      ({ status := 403, body := .error "Access denied" }, [])
    else
      let changes : ProjectChanges :=
        { name := orDefault body.name existingProject.name
          description := body.description.getD existingProject.description
          status := orDefault body.status existingProject.status }
      match store.updateProject id changes with
      | .error _ =>
        ({ status := 500, body := .error "Internal server error" }, [.updateProject id changes])
      | .ok project => ({ status := 200, body := .project project }, [.updateProject id changes])

/-- The handler `ProjectController.delete`. -/
def delete (store : Store) (user : User) (id : String) : ApiResponse × List StoreWrite :=
  match store.findProject id with
  | .error _ => ({ status := 500, body := .error "Internal server error" }, [])
  | .ok none => ({ status := 404, body := .error "Project not found" }, [])
  | .ok (some existingProject) =>
    if existingProject.owner_id ≠ user.id then
      ({ status := 403, body := .error "Access denied" }, [])
    else
      match store.deleteProject id with
      | .error _ =>
        ({ status := 500, body := .error "Internal server error" }, [.deleteProject id])
      | .ok _ =>
        ({ status := 200, body := .message "Project deleted successfully" }, [.deleteProject id])

/-- The handler `ProjectController.getIssues`. -/
def getIssues (store : Store) (user : User) (id : String) : ApiResponse × List StoreWrite :=
  match store.findProject id with
  | .error _ => ({ status := 500, body := .error "Internal server error" }, [])
  | .ok none => ({ status := 404, body := .error "Project not found" }, [])
  | .ok (some project) =>
    if project.owner_id ≠ user.id then
      ({ status := 403, body := .error "Access denied" }, [])
    else
      match store.issuesByProject id with
      | .error _ => ({ status := 500, body := .error "Internal server error" }, [])
      | .ok issues => ({ status := 200, body := .issues issues }, [])

end ProjectController

namespace IssueController

/-- The test `!project || project.owner_id !== req.user.id`. -/
def deniedFor (project : Option Project) (user : User) : Bool :=
  match project with
  | none => true
  | some project => decide (project.owner_id ≠ user.id)

/-- The handler `IssueController.getById`. -/
def getById (store : Store) (user : User) (id : String) : ApiResponse × List StoreWrite :=
  match store.findIssue id with
  | .error _ => ({ status := 500, body := .error "Internal server error" }, [])
  | .ok none => ({ status := 404, body := .error "Issue not found" }, [])
  | .ok (some issue) =>
    match store.findProject issue.project_id with
    | .error _ => ({ status := 500, body := .error "Internal server error" }, [])
    | .ok project =>
      if deniedFor project user then
        ({ status := 403, body := .error "Access denied" }, [])
      else
        ({ status := 200, body := .issue issue }, [])

/-- The handler `IssueController.update`. -/
def update (store : Store) (user : User) (id : String) (body : IssueUpdateRequest) :
    ApiResponse × List StoreWrite :=
  match store.findIssue id with
  | .error _ => ({ status := 500, body := .error "Internal server error" }, [])
  | .ok none => ({ status := 404, body := .error "Issue not found" }, [])
  | .ok (some existingIssue) =>
    match store.findProject existingIssue.project_id with
    | .error _ => ({ status := 500, body := .error "Internal server error" }, [])
    | .ok project =>
      if deniedFor project user then
        ({ status := 403, body := .error "Access denied" }, [])
      else
        let changes : IssueChanges :=
          { title := orDefault body.title existingIssue.title
            description := body.description.getD existingIssue.description
            status := orDefault body.status existingIssue.status
            priority := orDefault body.priority existingIssue.priority
            assignee_id := body.assignee_id.getD existingIssue.assignee_id
            tags := body.tags.getD existingIssue.tags }
        match store.updateIssue id changes with
        | .error _ =>
          ({ status := 500, body := .error "Internal server error" }, [.updateIssue id changes])
        | .ok issue => ({ status := 200, body := .issue issue }, [.updateIssue id changes])

/-- The handler `IssueController.delete`. -/
def delete (store : Store) (user : User) (id : String) : ApiResponse × List StoreWrite :=
  match store.findIssue id with
  | .error _ => ({ status := 500, body := .error "Internal server error" }, [])
  | .ok none => ({ status := 404, body := .error "Issue not found" }, [])
  | .ok (some existingIssue) =>
    match store.findProject existingIssue.project_id with
    | .error _ => ({ status := 500, body := .error "Internal server error" }, [])
    | .ok project =>
      if deniedFor project user then
        ({ status := 403, body := .error "Access denied" }, [])
      else
        match store.deleteIssue id with
        | .error _ =>
          ({ status := 500, body := .error "Internal server error" }, [.deleteIssue id])
        | .ok _ =>
          ({ status := 200, body := .message "Issue deleted successfully" }, [.deleteIssue id])

end IssueController

/-- A database with the user `u1` and no project and no issue. -/
def emptyDb : Db where
  users := [{ id := "u1", email := "a@x.com", password := "s3cret", name := "A",
              role := "user", created_at := "", updated_at := "" }]
  projects := []
  issues := []

/-- The user `u1` of `emptyDb`, as `req.user`. -/
def demoUser : User :=
  { id := "u1", email := "a@x.com", password := "s3cret", name := "A",
    role := "user", created_at := "", updated_at := "" }

/-! ## Creating and listing issues -/

/-- The test `!x` on an optional string: `undefined` and the empty string are falsy. -/
def isFalsy (x : Option String) : Bool :=
  match x with
  | none => true
  | some s => decide (s = "")

/-- The body of a `POST /issues` request; `none` is `undefined`. -/
structure IssueCreateRequest where
  title : Option String
  description : Option String
  project_id : Option String
  priority : Option String
  assignee_id : Option String
deriving DecidableEq, Repr

/-- What the `fetch` to the classification service and the reading of its reply come
to: the `fetch` rejects, the response is not `ok`, `response.json()` rejects, or a
body is parsed whose `tags` property is `tags` (`none` when it has none). -/
inductive ClassifyOutcome where
  | throws
  | notOk
  | badJson
  | body (tags : Option (List String))
deriving DecidableEq, Repr

/-- The value of `tags` after the inner `try` block of `IssueController.create`:
it starts as `[]` and is assigned `classificationData.tags || []` only on an `ok`
response whose body parses. -/
def classifiedTags : ClassifyOutcome → List String
  | .throws => []
  | .notOk => []
  | .badJson => []
  | .body tags => tags.getD []

/-- The query string of `GET /issues`; `none` is `undefined`. -/
structure IssueQuery where
  project_id : Option String
  status : Option String
  assignee_id : Option String
deriving DecidableEq, Repr

/-- The property `issue.project`: `new Issue(data)` assigns no such property, so
reading it gives `undefined`. -/
def Issue.project (_issue : Issue) : Option Project := none

/-- The callback `issue => issue.project_id && issue.project.owner_id === req.user.id`
of the unfiltered listing. Reading `owner_id` of `undefined` throws a `TypeError`. -/
def ownedByUser (user : User) (issue : Issue) : Except DbError Bool :=
  if issue.project_id = "" then .ok false
  else
    match issue.project with
    | none => .error { code := "TypeError" }
    | some project => .ok (decide (project.owner_id = user.id))

/-- The call `array.filter(callback)` with a callback that may throw: the first throw
ends the call. -/
def filterExcept {α ε : Type} (p : α → Except ε Bool) : List α → Except ε (List α)
  | [] => .ok []
  | x :: xs =>
    match p x with
    | .error e => .error e
    | .ok keep =>
      match filterExcept p xs with
      | .error e => .error e
      | .ok rest => .ok (if keep then x :: rest else rest)

/-- The step `if (status) issues = issues.filter(issue => issue.status === status)`. -/
def narrowByStatus (status : Option String) (issues : List Issue) : List Issue :=
  match status with
  | none => issues
  | some s => if s = "" then issues else issues.filter (fun issue => issue.status = s)

namespace IssueController

/-- The handler `IssueController.create`. `classify title description` is the outcome
of the classification call made with that title and description. -/
def create (store : Store) (classify : String → String → ClassifyOutcome) (user : User)
    (body : IssueCreateRequest) : ApiResponse × List StoreWrite :=
  if isFalsy body.title ∨ isFalsy body.project_id then
    ({ status := 400, body := .error "Title and project_id are required" }, [])
  else
    let title := body.title.getD ""
    let project_id := body.project_id.getD ""
    match store.findProject project_id with
    | .error _ => ({ status := 500, body := .error "Internal server error" }, [])
    | .ok none => ({ status := 404, body := .error "Project not found" }, [])
    | .ok (some project) =>
      if project.owner_id ≠ user.id then
        ({ status := 403, body := .error "Access denied" }, [])
      else
        let tags := classifiedTags (classify title (orDefault body.description ""))
        let data : IssueData :=
          { title := title
            description := orDefault body.description ""
            project_id := project_id
            assignee_id := if isFalsy body.assignee_id then none else body.assignee_id
            reporter_id := user.id
            priority := orDefault body.priority "medium"
            tags := tags }
        match store.createIssue data with
        | .error _ =>
          ({ status := 500, body := .error "Internal server error" }, [.createIssue data])
        | .ok issue => ({ status := 201, body := .issue issue }, [.createIssue data])

/-- The handler `IssueController.getAll`. -/
def getAll (store : Store) (user : User) (query : IssueQuery) :
    ApiResponse × List StoreWrite :=
  if !isFalsy query.project_id then
    let project_id := query.project_id.getD ""
    match store.findProject project_id with
    | .error _ => ({ status := 500, body := .error "Internal server error" }, [])
    | .ok none => ({ status := 404, body := .error "Project not found" }, [])
    | .ok (some project) =>
      if project.owner_id ≠ user.id then
        ({ status := 403, body := .error "Access denied" }, [])
      else
        match store.issuesByProject project_id with
        | .error _ => ({ status := 500, body := .error "Internal server error" }, [])
        | .ok issues =>
          ({ status := 200, body := .issues (narrowByStatus query.status issues) }, [])
  else if !isFalsy query.assignee_id then
    let assignee_id := query.assignee_id.getD ""
    if assignee_id ≠ user.id then
      ({ status := 403, body := .error "Access denied" }, [])
    else
      match store.issuesByAssignee assignee_id with
      | .error _ => ({ status := 500, body := .error "Internal server error" }, [])
      | .ok issues =>
        ({ status := 200, body := .issues (narrowByStatus query.status issues) }, [])
  else
    match store.allIssues with
    | .error _ => ({ status := 500, body := .error "Internal server error" }, [])
    | .ok issues =>
      match filterExcept (ownedByUser user) issues with
      | .error _ => ({ status := 500, body := .error "Internal server error" }, [])
      | .ok issues =>
        ({ status := 200, body := .issues (narrowByStatus query.status issues) }, [])

end IssueController

/-- The project `p1`, owned by the user `u1`. -/
def projectP1 : Project :=
  { id := "p1", name := "One", description := "", owner_id := "u1", status := "active",
    created_at := "", updated_at := "" }

/-- The project `p2`, owned by another user, `u2`. -/
def projectP2 : Project :=
  { id := "p2", name := "Two", description := "", owner_id := "u2", status := "active",
    created_at := "", updated_at := "" }

/-- The issue `i1` of project `p1`, with no assignee. -/
def issueI1 : Issue :=
  { id := "i1", title := "First", description := "", project_id := "p1",
    assignee_id := none, reporter_id := "u1", status := "todo", priority := "medium",
    tags := [], created_at := "", updated_at := "" }

/-- The issue `i2` of project `p2`, assigned to the user `u1`. -/
def issueI2 : Issue :=
  { id := "i2", title := "Second", description := "", project_id := "p2",
    assignee_id := some "u1", reporter_id := "u2", status := "todo", priority := "medium",
    tags := [], created_at := "", updated_at := "" }

/-- The issue `i3`, whose `project_id` names no project. -/
def issueI3 : Issue :=
  { id := "i3", title := "Third", description := "", project_id := "ghost",
    assignee_id := none, reporter_id := "u1", status := "todo", priority := "medium",
    tags := [], created_at := "", updated_at := "" }

/-- A database with the projects `p1` and `p2` and the issues `i1`, `i2` and `i3`. -/
def demoDb : Db where
  users := [demoUser]
  projects := [projectP1, projectP2]
  issues := [issueI1, issueI2, issueI3]

/-- The user `u2`, owner of project `p2`. -/
def otherUser : User :=
  { id := "u2", email := "b@x.com", password := "pw2", name := "B",
    role := "user", created_at := "", updated_at := "" }

/-- A classification service that is down. -/
def classifierDown : String → String → ClassifyOutcome := fun _ _ => .throws

open LoginAttemptService

/-! ## Map lemmas -/

theorem Guard.set_same (g : Guard) (email : String) (a : Attempt) :
    (g.set email a) email = some a := by
  simp [Guard.set]

theorem Guard.set_other (g : Guard) (email k : String) (a : Attempt) (h : k ≠ email) :
    (g.set email a) k = g k := by
  simp [Guard.set, h]

theorem Guard.delete_same (g : Guard) (email : String) :
    (g.delete email) email = none := by
  simp [Guard.delete]

theorem Guard.delete_other (g : Guard) (email k : String) (h : k ≠ email) :
    (g.delete email) k = g k := by
  simp [Guard.delete, h]

/-- The integer `ceilDiv x d` is the ceiling of the exact quotient `x / d`. -/
theorem ceilDiv_eq_ceil (x : Int) (d : Nat) : ceilDiv x d = ⌈(x : ℚ) / (d : ℚ)⌉ := by
  unfold ceilDiv
  rw [← Rat.floor_intCast_div_natCast, Int.cast_neg, neg_div, Int.floor_neg, neg_neg]

/-! ## `isLocked` -/

theorem isLocked_absent (g : Guard) (e : String) (now : Int) (h : g e = none) :
    isLocked g e now = (false, g) := by
  simp [isLocked, h]

theorem isLocked_expired (g : Guard) (e : String) (now : Int) (a : Attempt)
    (h : g e = some a) (hexp : a.lockUntil < now) :
    isLocked g e now = (false, g.delete e) := by
  have : 0 < now - a.lockUntil := by omega
  simp [isLocked, h, this]

theorem isLocked_live (g : Guard) (e : String) (now : Int) (a : Attempt)
    (h : g e = some a) (hlive : now ≤ a.lockUntil) :
    isLocked g e now = (true, g) := by
  have : ¬ 0 < now - a.lockUntil := by omega
  simp [isLocked, h, this]

/-- Whenever `isLocked` answers `false`, no record is left for the identity. -/
theorem isLocked_false_no_record (g : Guard) (e : String) (now : Int)
    (h : (isLocked g e now).1 = false) : (isLocked g e now).2 e = none := by
  cases hg : g e with
  | none => simp [isLocked, hg]
  | some a =>
    by_cases hexp : a.lockUntil < now
    · rw [isLocked_expired g e now a hg hexp]
      exact Guard.delete_same g e
    · rw [isLocked_live g e now a hg (by omega)] at h
      simp at h

/-! ## `recordFailedAttempt` on an absent record -/

theorem recordFailedAttempt_absent (g : Guard) (e : String) (now : Int) (h : g e = none) :
    recordFailedAttempt g e now =
      (⟨1, 2, false, some 0⟩, g.set e ⟨1, 0⟩) := by
  simp [recordFailedAttempt, h, MAX_ATTEMPTS]

/-! ## The login route never accumulates failures -/

/-- When `checkLoginLock` calls `next()`, the Map holds no record for the email. -/
theorem checkLoginLock_next_no_record (g : Guard) (req : LoginRequest) (now now2 : Int)
    (h : (checkLoginLock g req now now2).1 = none) :
    (checkLoginLock g req now now2).2 req.email = none := by
  unfold checkLoginLock at h ⊢
  cases hl : (isLocked g req.email now).1 with
  | true => simp [hl] at h
  | false =>
    simp only [hl]
    exact isLocked_false_no_record g req.email now hl

/-- A 401 from `AuthController.login` on a Map without a record for the email
reports the first attempt. -/
theorem login_unauthorized_of_no_record (env : AuthEnv) (g : Guard) (req : LoginRequest)
    (now : Int) (hg : g req.email = none)
    (h : (AuthController.login env g req now).1.status = 401) :
    (AuthController.login env g req now).1.body =
      .invalidCredentials "Invalid credentials" ⟨1, 2, false, some 0⟩ := by
  unfold AuthController.login at h ⊢
  by_cases hempty : req.email = "" ∨ req.password = ""
  · simp [hempty] at h
  · simp only [hempty, if_false] at h ⊢
    cases hf : env.findByEmail req.email with
    | error err => simp [hf] at h
    | ok u =>
      cases u with
      | none => simp [recordFailedAttempt_absent g req.email now hg]
      | some user =>
        cases hp : env.comparePassword req.password user.password with
        | true => simp [hf, hp] at h
        | false => simp [hp, recordFailedAttempt_absent g req.email now hg]

/-- Every 401 sent by the login route reports `attempts = 1`: the handler always
starts from an absent record. -/
theorem loginRoute_unauthorized_first_attempt (env : AuthEnv) (g : Guard) (req : LoginRequest)
    (t1 t2 t3 : Int) (h : (loginRoute env g req t1 t2 t3).1.status = 401) :
    (loginRoute env g req t1 t2 t3).1.body =
      .invalidCredentials "Invalid credentials" ⟨1, 2, false, some 0⟩ := by
  have hn := checkLoginLock_next_no_record g req t1 t2
  have h429 : ∀ res, (checkLoginLock g req t1 t2).1 = some res → res.status = 429 := by
    intro res hres
    unfold checkLoginLock at hres
    cases hl : (isLocked g req.email t1).1 with
    | true =>
      simp [hl] at hres
      simp [← hres]
    | false => simp [hl] at hres
  unfold loginRoute at h ⊢
  rcases hc : checkLoginLock g req t1 t2 with ⟨res, g1⟩
  rw [hc] at hn h429 h
  cases res with
  | some res =>
    have := h429 res rfl
    simp at h
    omega
  | none =>
    exact login_unauthorized_of_no_record env g1 req t3 (hn rfl) h

/-! ## The claims about the guard and the login route -/

/-- C1 (evaluation of the code): on an empty Map, three wrong-password logins for
`a@x.com` at the clock values 1000, 2000 and 3000 each get 401 with `attempts = 1`,
and a fourth login with the correct password at 3000 gets 200, not 429; the Map
holds no record afterwards. -/
theorem loginRoute_fourth_login_succeeds :
    (loginSequence demoEnv Guard.empty
        [(⟨"a@x.com", "bad"⟩, 1000), (⟨"a@x.com", "bad"⟩, 2000),
         (⟨"a@x.com", "bad"⟩, 3000), (⟨"a@x.com", "s3cret"⟩, 3000)]).1 =
      [⟨401, .invalidCredentials "Invalid credentials" ⟨1, 2, false, some 0⟩⟩,
       ⟨401, .invalidCredentials "Invalid credentials" ⟨1, 2, false, some 0⟩⟩,
       ⟨401, .invalidCredentials "Invalid credentials" ⟨1, 2, false, some 0⟩⟩,
       ⟨200, .loginSuccess "Login successful" "token-u1"
          ⟨"u1", "a@x.com", "A", "user", "", ""⟩⟩] := by
  decide

/-- C2 (evaluation of the code): a record with `count = 1` and no lock set
(`lockUntil = 0`) is deleted by `isLocked` at the clock value 1000, so the count
is lost. -/
theorem isLocked_deletes_counting_record :
    (Guard.empty.set "a@x.com" ⟨1, 0⟩) "a@x.com" = some ⟨1, 0⟩ ∧
    isLocked (Guard.empty.set "a@x.com" ⟨1, 0⟩) "a@x.com" 1000 =
      (false, (Guard.empty.set "a@x.com" ⟨1, 0⟩).delete "a@x.com") ∧
    (isLocked (Guard.empty.set "a@x.com" ⟨1, 0⟩) "a@x.com" 1000).2 "a@x.com" = none := by
  refine ⟨by decide, ?_, by decide⟩
  exact isLocked_expired _ _ _ ⟨1, 0⟩ (by decide) (by decide)

/-- C3: starting from a Map with no record for `e`, after three consecutive
`recordFailedAttempt(e)` calls at any clock values `t1`, `t2`, `t3` (in particular
`t1 ≤ t2 ≤ t3`), `isLocked(e)` at `t3` returns true and `getRemainingLockTime(e)` at
`t3` is positive and at most `LOCKOUT_DURATION`. -/
theorem three_failures_lock (g : Guard) (e : String) (t1 t2 t3 : Int) (h : g e = none) :
    (isLocked (recordFailedAttempt (recordFailedAttempt (recordFailedAttempt g e t1).2 e t2).2
        e t3).2 e t3).1 = true ∧
    0 < getRemainingLockTime (isLocked (recordFailedAttempt (recordFailedAttempt
        (recordFailedAttempt g e t1).2 e t2).2 e t3).2 e t3).2 e t3 ∧
    getRemainingLockTime (isLocked (recordFailedAttempt (recordFailedAttempt
        (recordFailedAttempt g e t1).2 e t2).2 e t3).2 e t3).2 e t3 ≤ LOCKOUT_DURATION := by
  have h3 : (recordFailedAttempt (recordFailedAttempt (recordFailedAttempt g e t1).2 e t2).2
      e t3).2 e = some ⟨3, t3 + LOCKOUT_DURATION⟩ := by
    simp [recordFailedAttempt, h, Guard.set, MAX_ATTEMPTS]
  rw [isLocked_live _ e t3 _ h3 (by simp [LOCKOUT_DURATION])]
  simp [getRemainingLockTime, h3, LOCKOUT_DURATION]

/-- Witness for C3. -/
theorem three_failures_lock_witness :
    (isLocked (recordFailedAttempt (recordFailedAttempt (recordFailedAttempt Guard.empty
        "a@x.com" 10).2 "a@x.com" 20).2 "a@x.com" 30).2 "a@x.com" 30).1 = true ∧
    0 < getRemainingLockTime (isLocked (recordFailedAttempt (recordFailedAttempt
        (recordFailedAttempt Guard.empty "a@x.com" 10).2 "a@x.com" 20).2 "a@x.com" 30).2
        "a@x.com" 30).2 "a@x.com" 30 ∧
    getRemainingLockTime (isLocked (recordFailedAttempt (recordFailedAttempt
        (recordFailedAttempt Guard.empty "a@x.com" 10).2 "a@x.com" 20).2 "a@x.com" 30).2
        "a@x.com" 30).2 "a@x.com" 30 ≤ LOCKOUT_DURATION :=
  three_failures_lock Guard.empty "a@x.com" 10 20 30 rfl

/-- C4 (as stated, refuted): with `lockUntil = 5000` and the clock at 5000, `isLocked`
returns true although `lockUntil` is not strictly in the future. -/
theorem isLocked_strict_future_fails :
    ¬ ((isLocked (Guard.empty.set "a@x.com" ⟨3, 5000⟩) "a@x.com" 5000).1 = true ↔
        ∃ a, (Guard.empty.set "a@x.com" ⟨3, 5000⟩) "a@x.com" = some a ∧ a.lockUntil > 5000) := by
  intro hiff
  obtain ⟨a, ha, hlt⟩ := hiff.mp (by decide)
  rw [Guard.set_same] at ha
  cases ha
  exact absurd hlt (by decide)

/-- C4 (amended): `isLocked(e)` returns true exactly when a record exists for `e`
and `lockUntil ≥ now`; at `now = lockUntil` it returns true. -/
theorem isLocked_true_iff (g : Guard) (e : String) (now : Int) :
    (isLocked g e now).1 = true ↔ ∃ a, g e = some a ∧ a.lockUntil ≥ now := by
  cases hg : g e with
  | none => simp [isLocked, hg]
  | some a =>
    by_cases hexp : a.lockUntil < now
    · rw [isLocked_expired g e now a hg hexp]
      simp
      omega
    · rw [isLocked_live g e now a hg (by omega)]
      simp
      omega

/-- C5: `recordFailedAttempt(e)` stores `count = c + 1`, where `c` is the prior count
of `e` (0 without a record), returns `attempts = c + 1` and
`remainingAttempts = max(0, MAX_ATTEMPTS - (c + 1))`, and stores
`lockUntil = now + LOCKOUT_DURATION` when `c + 1 = MAX_ATTEMPTS`. -/
theorem recordFailedAttempt_increments (g : Guard) (e : String) (now : Int) :
    (∃ a, (recordFailedAttempt g e now).2 e = some a ∧ a.count = g.count e + 1 ∧
      (g.count e + 1 = MAX_ATTEMPTS → a.lockUntil = now + LOCKOUT_DURATION)) ∧
    (recordFailedAttempt g e now).1.attempts = g.count e + 1 ∧
    (recordFailedAttempt g e now).1.remainingAttempts =
      max 0 (MAX_ATTEMPTS - (g.count e + 1)) := by
  cases hg : g e with
  | none => simp [recordFailedAttempt, Guard.count, Guard.set, hg, MAX_ATTEMPTS]
  | some a0 =>
    refine ⟨⟨_, Guard.set_same _ _ _, ?_, ?_⟩, ?_, ?_⟩
    · simp [Guard.count, hg]
    · intro hc
      simp only [Guard.count, hg] at hc
      simp [hg, hc]
    · simp [recordFailedAttempt, Guard.count, hg]
    · simp [recordFailedAttempt, Guard.count, hg]

/-- C6 (as stated, refuted): for a record already at `count = 3`, the call raises the
count to 4, not to `MAX_ATTEMPTS`, and the snapshot still has `isLocked = true` and
`lockTime = LOCKOUT_DURATION`. -/
theorem recordFailedAttempt_just_reached_fails :
    ¬ (((recordFailedAttempt (Guard.empty.set "a@x.com" ⟨3, 1000⟩) "a@x.com" 2000).1.isLocked = true
          ∧ (recordFailedAttempt (Guard.empty.set "a@x.com" ⟨3, 1000⟩) "a@x.com" 2000).1.lockTime
              = some LOCKOUT_DURATION)
        ↔ (Guard.empty.set "a@x.com" ⟨3, 1000⟩).count "a@x.com" + 1 = MAX_ATTEMPTS) := by
  intro hiff
  exact absurd (hiff.mp ⟨by decide, by decide⟩) (by decide)

/-- C6 (amended): the snapshot of `recordFailedAttempt(e)` has `isLocked = true` and
`lockTime = LOCKOUT_DURATION` exactly when the new count `c + 1` is at least
`MAX_ATTEMPTS`, also when the count was already at or above it; otherwise it has
`isLocked = false` and `lockTime = 0`. -/
theorem recordFailedAttempt_locked_iff (g : Guard) (e : String) (now : Int) :
    (((recordFailedAttempt g e now).1.isLocked = true ∧
        (recordFailedAttempt g e now).1.lockTime = some LOCKOUT_DURATION)
      ↔ g.count e + 1 ≥ MAX_ATTEMPTS) ∧
    (((recordFailedAttempt g e now).1.isLocked = false ∧
        (recordFailedAttempt g e now).1.lockTime = some 0)
      ↔ g.count e + 1 < MAX_ATTEMPTS) := by
  have hcount : ((g e).getD { count := 0, lockUntil := 0 }).count = g.count e := by
    cases hg : g e <;> simp [Guard.count, hg]
  by_cases hc : g.count e + 1 ≥ MAX_ATTEMPTS
  · have hc2 : ¬ g.count e + 1 < MAX_ATTEMPTS := by omega
    simp [recordFailedAttempt, hcount, hc, hc2]
  · have hc2 : g.count e + 1 < MAX_ATTEMPTS := by omega
    simp [recordFailedAttempt, hcount, hc, hc2, LOCKOUT_DURATION]

/-- C7: after `recordSuccessfulAttempt(e)`, from any Map, no record exists for `e`,
and the next `getAttemptInfo(e)` returns `attempts = 0`,
`remainingAttempts = MAX_ATTEMPTS` and `isLocked = false`. -/
theorem recordSuccessfulAttempt_resets (g : Guard) (e : String) (now now2 : Int) :
    (recordSuccessfulAttempt g e) e = none ∧
    (getAttemptInfo (recordSuccessfulAttempt g e) e now now2).1.attempts = 0 ∧
    (getAttemptInfo (recordSuccessfulAttempt g e) e now now2).1.remainingAttempts = MAX_ATTEMPTS ∧
    (getAttemptInfo (recordSuccessfulAttempt g e) e now now2).1.isLocked = false := by
  have h : (recordSuccessfulAttempt g e) e = none := Guard.delete_same g e
  simp [getAttemptInfo, h]

/-- C8: when `e` was locked at time `t` (`lockUntil = t + LOCKOUT_DURATION`) and
`now - t > LOCKOUT_DURATION`, `isLocked(e)` at `now` returns false, and a
`getAttemptInfo(e)` call made after it reports `attempts = 0`. -/
theorem lock_expires (g : Guard) (e : String) (a : Attempt) (t now now2 now3 : Int)
    (hg : g e = some a) (hlock : a.lockUntil = t + LOCKOUT_DURATION)
    (hnow : now - t > LOCKOUT_DURATION) :
    (isLocked g e now).1 = false ∧
    (getAttemptInfo (isLocked g e now).2 e now2 now3).1.attempts = 0 := by
  rw [isLocked_expired g e now a hg (by omega)]
  simp [getAttemptInfo, Guard.delete_same]

/-- Witness for C8: a lock taken at 1000 is read at 181001. -/
theorem lock_expires_witness :
    (isLocked (Guard.empty.set "a@x.com" ⟨3, 181000⟩) "a@x.com" 181001).1 = false ∧
    (getAttemptInfo (isLocked (Guard.empty.set "a@x.com" ⟨3, 181000⟩) "a@x.com" 181001).2
      "a@x.com" 181002 181003).1.attempts = 0 :=
  lock_expires (Guard.empty.set "a@x.com" ⟨3, 181000⟩) "a@x.com" ⟨3, 181000⟩ 1000 181001
    181002 181003 (by decide) (by decide) (by decide)

/-- C9 (as stated, refuted): for a record with `count = 3` whose lock ended at 1000,
`recordFailedAttempt` at 2000, with no other call in between, does not return the
snapshot of a first failure. -/
theorem recordFailedAttempt_expired_not_absent :
    ¬ ((recordFailedAttempt (Guard.empty.set "a@x.com" ⟨3, 1000⟩) "a@x.com" 2000).1.attempts = 1 ∧
       (recordFailedAttempt (Guard.empty.set "a@x.com" ⟨3, 1000⟩) "a@x.com" 2000).1.remainingAttempts
          = MAX_ATTEMPTS - 1 ∧
       (recordFailedAttempt (Guard.empty.set "a@x.com" ⟨3, 1000⟩) "a@x.com" 2000).1.isLocked
          = false) := by
  decide

/-- C9 (amended): for a record whose lock has elapsed (`lockUntil < now`, in
particular `now > lockUntil > 0`), `recordFailedAttempt(e)` called after an `isLocked(e)` check at `now` returns
`attempts = 1`, `remainingAttempts = MAX_ATTEMPTS - 1` and `isLocked = false`, the
snapshot it returns for an identity with no record; called with no such check it
continues from the stored count `c` and returns `attempts = c + 1`. -/
theorem recordFailedAttempt_after_purge (g : Guard) (e : String) (a : Attempt) (now now2 : Int)
    (hg : g e = some a) (hexp : a.lockUntil < now) :
    (recordFailedAttempt (isLocked g e now).2 e now2).1.attempts = 1 ∧
    (recordFailedAttempt (isLocked g e now).2 e now2).1.remainingAttempts = MAX_ATTEMPTS - 1 ∧
    (recordFailedAttempt (isLocked g e now).2 e now2).1.isLocked = false ∧
    (recordFailedAttempt (isLocked g e now).2 e now2).1 =
      (recordFailedAttempt Guard.empty e now2).1 ∧
    (recordFailedAttempt g e now).1.attempts = a.count + 1 := by
  have hpurged : (isLocked g e now).2 e = none := by
    rw [isLocked_expired g e now a hg hexp]
    exact Guard.delete_same g e
  rw [recordFailedAttempt_absent _ e now2 hpurged, recordFailedAttempt_absent _ e now2 rfl]
  simp [recordFailedAttempt, hg, MAX_ATTEMPTS]

/-- Witness for C9 (amended): the record `{ count: 3, lockUntil: 1000 }` at 2000. -/
theorem recordFailedAttempt_after_purge_witness :
    (recordFailedAttempt (isLocked (Guard.empty.set "a@x.com" ⟨3, 1000⟩) "a@x.com" 2000).2
        "a@x.com" 2001).1.attempts = 1 ∧
    (recordFailedAttempt (isLocked (Guard.empty.set "a@x.com" ⟨3, 1000⟩) "a@x.com" 2000).2
        "a@x.com" 2001).1.remainingAttempts = MAX_ATTEMPTS - 1 ∧
    (recordFailedAttempt (isLocked (Guard.empty.set "a@x.com" ⟨3, 1000⟩) "a@x.com" 2000).2
        "a@x.com" 2001).1.isLocked = false ∧
    (recordFailedAttempt (isLocked (Guard.empty.set "a@x.com" ⟨3, 1000⟩) "a@x.com" 2000).2
        "a@x.com" 2001).1 = (recordFailedAttempt Guard.empty "a@x.com" 2001).1 ∧
    (recordFailedAttempt (Guard.empty.set "a@x.com" ⟨3, 1000⟩) "a@x.com" 2000).1.attempts
      = (3 : Int) + 1 :=
  recordFailedAttempt_after_purge (Guard.empty.set "a@x.com" ⟨3, 1000⟩) "a@x.com" ⟨3, 1000⟩
    2000 2001 (by decide) (by decide)

/-- C10 (evaluation of the code): for the record `{ count: 3, lockUntil: 1000 }`,
`getAttemptInfo` at 2000 deletes the record and returns `attempts = 3` and
`remainingAttempts = 0` with `isLocked = false`, whereas for an identity with no
record it returns `attempts = 0` and `remainingAttempts = 3`. -/
theorem getAttemptInfo_expired_reports_stale_count :
    (getAttemptInfo (Guard.empty.set "a@x.com" ⟨3, 1000⟩) "a@x.com" 2000 2000).1 =
      ⟨3, 0, false, some 0⟩ ∧
    (getAttemptInfo (Guard.empty.set "a@x.com" ⟨3, 1000⟩) "a@x.com" 2000 2000).2 "a@x.com" = none ∧
    (getAttemptInfo Guard.empty "a@x.com" 2000 2000).1 = ⟨0, 3, false, none⟩ := by
  decide

/-! ## The record invariant -/

theorem wellFormed_delete (g : Guard) (e : String)
    (h : ∀ k a, g k = some a → a.WellFormed) :
    ∀ k a, (g.delete e) k = some a → a.WellFormed := by
  intro k a hk
  by_cases hke : k = e
  · subst hke
    rw [Guard.delete_same] at hk
    cases hk
  · rw [Guard.delete_other g e k hke] at hk
    exact h k a hk

theorem wellFormed_isLocked (g : Guard) (e : String) (now : Int)
    (h : ∀ k a, g k = some a → a.WellFormed) :
    ∀ k a, (isLocked g e now).2 k = some a → a.WellFormed := by
  cases hg : g e with
  | none => rw [isLocked_absent g e now hg]; exact h
  | some a0 =>
    by_cases hexp : a0.lockUntil < now
    · rw [isLocked_expired g e now a0 hg hexp]
      exact wellFormed_delete g e h
    · rw [isLocked_live g e now a0 hg (by omega)]
      exact h

theorem wellFormed_recordFailedAttempt (g : Guard) (e : String) (now : Int) (hnow : 0 ≤ now)
    (h : ∀ k a, g k = some a → a.WellFormed) :
    ∀ k a, (recordFailedAttempt g e now).2 k = some a → a.WellFormed := by
  intro k a hk
  by_cases hke : k = e
  · subst hke
    simp only [recordFailedAttempt, Guard.set_same, Option.some.injEq] at hk
    subst hk
    cases hg : g k with
    | none =>
      simp [Attempt.WellFormed, MAX_ATTEMPTS]
    | some a0 =>
      obtain ⟨h1, h2⟩ := h k a0 hg
      simp only [Attempt.WellFormed, MAX_ATTEMPTS, LOCKOUT_DURATION, Option.getD_some] at h1 h2 ⊢
      refine ⟨by omega, ?_⟩
      by_cases hc : a0.count + 1 ≥ 3
      · simp only [hc, if_true, true_iff]
        omega
      · simp only [hc, if_false, false_iff, not_not]
        by_contra hne
        have := h2.mpr hne
        omega
  · simp only [recordFailedAttempt] at hk
    rw [Guard.set_other _ e k _ hke] at hk
    exact h k a hk

theorem wellFormed_getAttemptInfo (g : Guard) (e : String) (now now2 : Int)
    (h : ∀ k a, g k = some a → a.WellFormed) :
    ∀ k a, (getAttemptInfo g e now now2).2 k = some a → a.WellFormed := by
  cases hg : g e with
  | none => simpa [getAttemptInfo, hg] using h
  | some a0 =>
    simp only [getAttemptInfo, hg]
    exact wellFormed_isLocked g e now h

theorem wellFormed_apply (g : Guard) (c : GuardCall) (hc : c.nonneg = true)
    (h : ∀ k a, g k = some a → a.WellFormed) :
    ∀ k a, (c.apply g) k = some a → a.WellFormed := by
  cases c with
  | isLocked e now => exact wellFormed_isLocked g e now h
  | getRemainingLockTime e now => exact h
  | recordFailedAttempt e now =>
    exact wellFormed_recordFailedAttempt g e now (by simpa [GuardCall.nonneg] using hc) h
  | recordSuccessfulAttempt e => exact wellFormed_delete g e h
  | getAttemptInfo e now now2 => exact wellFormed_getAttemptInfo g e now now2 h

theorem wellFormed_runCalls (calls : List GuardCall) (g : Guard)
    (hcalls : ∀ c ∈ calls, c.nonneg = true)
    (h : ∀ k a, g k = some a → a.WellFormed) :
    ∀ k a, (runCalls g calls) k = some a → a.WellFormed := by
  induction calls generalizing g with
  | nil => exact h
  | cons c rest ih =>
    simp only [runCalls, List.foldl_cons]
    exact ih (c.apply g) (fun c2 hc2 => hcalls c2 (List.mem_cons_of_mem c hc2))
      (wellFormed_apply g c (hcalls c (List.mem_cons_self c rest)) h)

/-- C11: in every Map reached from the empty Map by a sequence of `isLocked`,
`getRemainingLockTime`, `recordFailedAttempt`, `recordSuccessfulAttempt` and
`getAttemptInfo` calls at non-negative clock values, every stored record has
`count ≥ 1`, and `count ≥ MAX_ATTEMPTS` exactly when `lockUntil` is non-zero. -/
theorem reachable_records_wellFormed (calls : List GuardCall)
    (hcalls : ∀ c ∈ calls, c.nonneg = true) (e : String) (a : Attempt)
    (hrec : (runCalls Guard.empty calls) e = some a) :
    a.count ≥ 1 ∧ (a.count ≥ MAX_ATTEMPTS ↔ a.lockUntil ≠ 0) :=
  wellFormed_runCalls calls Guard.empty hcalls (fun _ _ hk => by cases hk) e a hrec

/-- Witness for C11: three failures for `a@x.com`, with other calls in between,
leave the record `{ count: 3, lockUntil: 180030 }`. -/
theorem reachable_records_wellFormed_witness :
    (3 : Int) ≥ 1 ∧ ((3 : Int) ≥ MAX_ATTEMPTS ↔ (180030 : Int) ≠ 0) :=
  reachable_records_wellFormed
    [.recordFailedAttempt "a@x.com" 10, .getRemainingLockTime "a@x.com" 15,
     .recordFailedAttempt "a@x.com" 20, .recordFailedAttempt "b@x.com" 25,
     .recordFailedAttempt "a@x.com" 30, .isLocked "a@x.com" 40,
     .getAttemptInfo "a@x.com" 50 51, .recordSuccessfulAttempt "b@x.com"]
    (by decide) "a@x.com" ⟨3, 180030⟩ (by decide)

/-! ## `getRemainingLockTime`, `checkLoginLock` and `AuthController.login` -/

/-- C12: `getRemainingLockTime(e)` equals `max(0, lockUntil - now)` when a record
exists for `e` and `0` when none exists; it is never negative, and the call leaves
the Map as it was. -/
theorem getRemainingLockTime_spec (g : Guard) (e : String) (now : Int) :
    (∀ a, g e = some a → getRemainingLockTime g e now = max 0 (a.lockUntil - now)) ∧
    (g e = none → getRemainingLockTime g e now = 0) ∧
    0 ≤ getRemainingLockTime g e now ∧
    (GuardCall.getRemainingLockTime e now).apply g = g := by
  refine ⟨?_, ?_, ?_, rfl⟩
  · intro a ha
    simp [getRemainingLockTime, ha]
  · intro hn
    simp [getRemainingLockTime, hn]
  · cases hg : g e <;> simp [getRemainingLockTime, hg]

theorem ceilDiv_thousand (x : Int) : ceilDiv x 1000 = ⌈(x : ℚ) / 1000⌉ := by
  have h := ceilDiv_eq_ceil x 1000
  simpa using h

theorem checkLoginLock_locked (g : Guard) (req : LoginRequest) (now now2 : Int)
    (h : (isLocked g req.email now).1 = true) :
    checkLoginLock g req now now2 =
      (some ⟨429, .locked "Account temporarily locked due to too many failed attempts"
        (ceilDiv (getRemainingLockTime g req.email now2) 1000)⟩, g) := by
  have hg : (isLocked g req.email now).2 = g := by
    cases hrec : g req.email with
    | none => simp [isLocked, hrec] at h
    | some a =>
      by_cases hexp : a.lockUntil < now
      · rw [isLocked_expired g req.email now a hrec hexp] at h
        simp at h
      · rw [isLocked_live g req.email now a hrec (by omega)]
  simp [checkLoginLock, h, hg]

theorem checkLoginLock_unlocked (g : Guard) (req : LoginRequest) (now now2 : Int)
    (h : (isLocked g req.email now).1 = false) :
    checkLoginLock g req now now2 = (none, (isLocked g req.email now).2) := by
  simp [checkLoginLock, h]

/-- C13: when the request's email is locked at arrival, `checkLoginLock` responds 429
with `lockTimeRemaining = ⌈getRemainingLockTime(email) / 1000⌉`, the route never
reaches `AuthController.login` (whatever the store and the password), and the Map is
unchanged; when the email is not locked, the middleware sends nothing and the
route continues with `AuthController.login`. -/
theorem checkLoginLock_spec (g : Guard) (req : LoginRequest) (now now2 : Int) :
    ((isLocked g req.email now).1 = true →
      checkLoginLock g req now now2 =
        (some ⟨429, .locked "Account temporarily locked due to too many failed attempts"
          ⌈(getRemainingLockTime g req.email now2 : ℚ) / 1000⌉⟩, g) ∧
      ∀ (env : AuthEnv) (t3 : Int), loginRoute env g req now now2 t3 =
        (⟨429, .locked "Account temporarily locked due to too many failed attempts"
          ⌈(getRemainingLockTime g req.email now2 : ℚ) / 1000⌉⟩, g)) ∧
    ((isLocked g req.email now).1 = false →
      (checkLoginLock g req now now2).1 = none ∧
      ∀ (env : AuthEnv) (t3 : Int), loginRoute env g req now now2 t3 =
        AuthController.login env (isLocked g req.email now).2 req t3) := by
  constructor
  · intro h
    have hc := checkLoginLock_locked g req now now2 h
    rw [ceilDiv_thousand] at hc
    refine ⟨hc, ?_⟩
    intro env t3
    simp [loginRoute, hc]
  · intro h
    have hc := checkLoginLock_unlocked g req now now2 h
    refine ⟨by rw [hc], ?_⟩
    intro env t3
    simp [loginRoute, hc]

/-- Witness for C13: the correct password for the locked `a@x.com`, sent at 2000,
is answered by the middleware. -/
theorem checkLoginLock_spec_witness :
    loginRoute demoEnv lockedGuard ⟨"a@x.com", "s3cret"⟩ 2000 2001 2002 =
      (⟨429, .locked "Account temporarily locked due to too many failed attempts"
        ⌈(getRemainingLockTime lockedGuard "a@x.com" 2001 : ℚ) / 1000⌉⟩, lockedGuard) :=
  ((checkLoginLock_spec lockedGuard ⟨"a@x.com", "s3cret"⟩ 2000 2001).1 (by decide)).2
    demoEnv 2002

theorem login_failure (env : AuthEnv) (g : Guard) (req : LoginRequest) (now : Int)
    (he : req.email ≠ "") (hp : req.password ≠ "")
    (hf : failsCredentialCheck env req = true) :
    AuthController.login env g req now =
      (⟨401, .invalidCredentials "Invalid credentials"
          (recordFailedAttempt g req.email now).1⟩,
       (recordFailedAttempt g req.email now).2) := by
  unfold failsCredentialCheck at hf
  unfold AuthController.login
  have hne : ¬ (req.email = "" ∨ req.password = "") := by
    rintro (h | h)
    · exact he h
    · exact hp h
  simp only [hne, if_false]
  cases hfind : env.findByEmail req.email with
  | error err => simp [hfind] at hf
  | ok u =>
    cases u with
    | none => rfl
    | some user =>
      simp only [hfind, Bool.not_eq_true'] at hf
      simp [hf]

theorem login_success (env : AuthEnv) (g : Guard) (req : LoginRequest) (now : Int)
    (user : User) (he : req.email ≠ "") (hp : req.password ≠ "")
    (hs : passesCredentialCheck env req user) :
    AuthController.login env g req now =
      (⟨200, .loginSuccess "Login successful" (env.generateToken user) user.withoutPassword⟩,
       recordSuccessfulAttempt g req.email) := by
  obtain ⟨hfind, hcmp⟩ := hs
  unfold AuthController.login
  have hne : ¬ (req.email = "" ∨ req.password = "") := by
    rintro (h | h)
    · exact he h
    · exact hp h
  simp [hne, hfind, hcmp]

/-- C14: a request with non-empty email and password that fails the credential check
gets 401 carrying the snapshot of one `recordFailedAttempt(email)` call, and the Map
left behind is the one after exactly that one call (the stored count rose by one);
a request with an empty email or password gets 400 and the Map is untouched. -/
theorem login_records_failure_once (env : AuthEnv) (g : Guard) (req : LoginRequest)
    (now : Int) :
    (req.email ≠ "" → req.password ≠ "" → failsCredentialCheck env req = true →
      AuthController.login env g req now =
        (⟨401, .invalidCredentials "Invalid credentials"
            (recordFailedAttempt g req.email now).1⟩,
         (GuardCall.recordFailedAttempt req.email now).apply g) ∧
      (AuthController.login env g req now).2.count req.email = g.count req.email + 1) ∧
    ((req.email = "" ∨ req.password = "") →
      AuthController.login env g req now =
        (⟨400, .error "Email and password are required"⟩, g)) := by
  constructor
  · intro he hp hf
    have hl := login_failure env g req now he hp hf
    refine ⟨hl, ?_⟩
    rw [hl]
    cases hg : g req.email <;> simp [recordFailedAttempt, Guard.count, Guard.set, hg]
  · intro h
    simp [AuthController.login, h]

/-- Witness for C14: a wrong password for `a@x.com` on the empty Map. -/
theorem login_records_failure_once_witness :
    AuthController.login demoEnv Guard.empty ⟨"a@x.com", "bad"⟩ 1000 =
        (⟨401, .invalidCredentials "Invalid credentials"
            (recordFailedAttempt Guard.empty "a@x.com" 1000).1⟩,
         (GuardCall.recordFailedAttempt "a@x.com" 1000).apply Guard.empty) ∧
      (AuthController.login demoEnv Guard.empty ⟨"a@x.com", "bad"⟩ 1000).2.count "a@x.com" =
        Guard.empty.count "a@x.com" + 1 :=
  (login_records_failure_once demoEnv Guard.empty ⟨"a@x.com", "bad"⟩ 1000).1
    (by decide) (by decide) (by decide)

/-! ## Two failures, then a success -/

theorem loginRoute_failure_of_unlocked (env : AuthEnv) (g : Guard) (req : LoginRequest)
    (t1 t2 t3 : Int) (he : req.email ≠ "") (hp : req.password ≠ "")
    (hf : failsCredentialCheck env req = true)
    (hl : (isLocked g req.email t1).1 = false) :
    (loginRoute env g req t1 t2 t3).1 =
        ⟨401, .invalidCredentials "Invalid credentials" ⟨1, 2, false, some 0⟩⟩ ∧
      (loginRoute env g req t1 t2 t3).2 req.email = some ⟨1, 0⟩ := by
  have hnone := isLocked_false_no_record g req.email t1 hl
  have hroute : loginRoute env g req t1 t2 t3 =
      AuthController.login env (isLocked g req.email t1).2 req t3 := by
    simp [loginRoute, checkLoginLock_unlocked g req t1 t2 hl]
  rw [hroute, login_failure env _ req t3 he hp hf, recordFailedAttempt_absent _ _ t3 hnone]
  exact ⟨rfl, Guard.set_same _ _ _⟩

theorem loginRoute_success_of_unlocked (env : AuthEnv) (g : Guard) (req : LoginRequest)
    (t1 t2 t3 : Int) (user : User) (he : req.email ≠ "") (hp : req.password ≠ "")
    (hs : passesCredentialCheck env req user)
    (hl : (isLocked g req.email t1).1 = false) :
    (loginRoute env g req t1 t2 t3).1 =
        ⟨200, .loginSuccess "Login successful" (env.generateToken user)
          user.withoutPassword⟩ ∧
      (loginRoute env g req t1 t2 t3).2 req.email = none := by
  have hroute : loginRoute env g req t1 t2 t3 =
      AuthController.login env (isLocked g req.email t1).2 req t3 := by
    simp [loginRoute, checkLoginLock_unlocked g req t1 t2 hl]
  rw [hroute, login_success env _ req t3 user he hp hs]
  exact ⟨rfl, Guard.delete_same _ _⟩

theorem isLocked_counting_record (g : Guard) (e : String) (now : Int) (c : Int)
    (hg : g e = some ⟨c, 0⟩) (hnow : 0 < now) : (isLocked g e now).1 = false := by
  rw [isLocked_expired g e now ⟨c, 0⟩ hg hnow]

/-- C15: starting with no record for `e`, two login requests that fail the credential
check followed by one that passes it, all through `checkLoginLock` and
`AuthController.login` at positive clock values, get 401, 401 and 200 with the token
and the stored user without its password, and leave no record for `e`:
`getAttemptInfo(e)` then returns `attempts = 0` and `isLocked = false`. -/
theorem two_failures_then_success_clears (env : AuthEnv) (g : Guard) (e p1 p2 p3 : String)
    (user : User) (t1 t1r t1c t2 t2r t2c t3 t3r t3c n n2 : Int)
    (hg : g e = none) (he : e ≠ "") (hp1 : p1 ≠ "") (hp2 : p2 ≠ "") (hp3 : p3 ≠ "")
    (hf1 : failsCredentialCheck env ⟨e, p1⟩ = true)
    (hf2 : failsCredentialCheck env ⟨e, p2⟩ = true)
    (hs : passesCredentialCheck env ⟨e, p3⟩ user)
    (ht2 : 0 < t2) (ht3 : 0 < t3) :
    (loginRun env g [(⟨e, p1⟩, t1, t1r, t1c), (⟨e, p2⟩, t2, t2r, t2c),
        (⟨e, p3⟩, t3, t3r, t3c)]).1 =
      [⟨401, .invalidCredentials "Invalid credentials" ⟨1, 2, false, some 0⟩⟩,
       ⟨401, .invalidCredentials "Invalid credentials" ⟨1, 2, false, some 0⟩⟩,
       ⟨200, .loginSuccess "Login successful" (env.generateToken user)
          user.withoutPassword⟩] ∧
    (loginRun env g [(⟨e, p1⟩, t1, t1r, t1c), (⟨e, p2⟩, t2, t2r, t2c),
        (⟨e, p3⟩, t3, t3r, t3c)]).2 e = none ∧
    (getAttemptInfo (loginRun env g [(⟨e, p1⟩, t1, t1r, t1c), (⟨e, p2⟩, t2, t2r, t2c),
        (⟨e, p3⟩, t3, t3r, t3c)]).2 e n n2).1.attempts = 0 ∧
    (getAttemptInfo (loginRun env g [(⟨e, p1⟩, t1, t1r, t1c), (⟨e, p2⟩, t2, t2r, t2c),
        (⟨e, p3⟩, t3, t3r, t3c)]).2 e n n2).1.isLocked = false := by
  have hl1 : (isLocked g e t1).1 = false := by rw [isLocked_absent g e t1 hg]
  obtain ⟨hr1, hg1⟩ :=
    loginRoute_failure_of_unlocked env g ⟨e, p1⟩ t1 t1r t1c he hp1 hf1 hl1
  have hl2 := isLocked_counting_record _ e t2 1 hg1 ht2
  obtain ⟨hr2, hg2⟩ :=
    loginRoute_failure_of_unlocked env _ ⟨e, p2⟩ t2 t2r t2c he hp2 hf2 hl2
  have hl3 := isLocked_counting_record _ e t3 1 hg2 ht3
  obtain ⟨hr3, hg3⟩ :=
    loginRoute_success_of_unlocked env _ ⟨e, p3⟩ t3 t3r t3c user he hp3 hs hl3
  simp only [loginRun]
  refine ⟨by rw [hr1, hr2, hr3], hg3, ?_, ?_⟩ <;> simp [getAttemptInfo, hg3]

/-- Witness for C15: `a@x.com` sends two wrong passwords and then the right one. -/
theorem two_failures_then_success_clears_witness :
    (loginRun demoEnv Guard.empty [(⟨"a@x.com", "bad"⟩, 1000, 1000, 1001),
        (⟨"a@x.com", "worse"⟩, 2000, 2000, 2001),
        (⟨"a@x.com", "s3cret"⟩, 3000, 3000, 3001)]).1 =
      [⟨401, .invalidCredentials "Invalid credentials" ⟨1, 2, false, some 0⟩⟩,
       ⟨401, .invalidCredentials "Invalid credentials" ⟨1, 2, false, some 0⟩⟩,
       ⟨200, .loginSuccess "Login successful"
          (demoEnv.generateToken ⟨"u1", "a@x.com", "s3cret", "A", "user", "", ""⟩)
          (User.withoutPassword ⟨"u1", "a@x.com", "s3cret", "A", "user", "", ""⟩)⟩] ∧
    (loginRun demoEnv Guard.empty [(⟨"a@x.com", "bad"⟩, 1000, 1000, 1001),
        (⟨"a@x.com", "worse"⟩, 2000, 2000, 2001),
        (⟨"a@x.com", "s3cret"⟩, 3000, 3000, 3001)]).2 "a@x.com" = none ∧
    (getAttemptInfo (loginRun demoEnv Guard.empty [(⟨"a@x.com", "bad"⟩, 1000, 1000, 1001),
        (⟨"a@x.com", "worse"⟩, 2000, 2000, 2001),
        (⟨"a@x.com", "s3cret"⟩, 3000, 3000, 3001)]).2 "a@x.com" 4000 4001).1.attempts = 0 ∧
    (getAttemptInfo (loginRun demoEnv Guard.empty [(⟨"a@x.com", "bad"⟩, 1000, 1000, 1001),
        (⟨"a@x.com", "worse"⟩, 2000, 2000, 2001),
        (⟨"a@x.com", "s3cret"⟩, 3000, 3000, 3001)]).2 "a@x.com" 4000 4001).1.isLocked
      = false :=
  two_failures_then_success_clears demoEnv Guard.empty "a@x.com" "bad" "worse" "s3cret"
    ⟨"u1", "a@x.com", "s3cret", "A", "user", "", ""⟩ 1000 1000 1001 2000 2000 2001
    3000 3000 3001 4000 4001 rfl (by decide) (by decide) (by decide) (by decide)
    (by decide) (by decide) ⟨rfl, rfl⟩ (by decide) (by decide)

/-! ## The user object in responses -/

theorem withoutPassword_properties (user : User) :
    user.withoutPassword.properties = omitProperty "password" user.properties := by
  simp [User.withoutPassword, PublicUser.properties, User.properties, omitProperty,
    List.filter]

theorem register_success (env : RegisterEnv) (req : RegisterRequest) (hashed : String)
    (user : User) (he : req.email ≠ "") (hp : req.password ≠ "") (hn : req.name ≠ "")
    (hfind : env.findByEmail req.email = .ok none)
    (hhash : env.hashPassword req.password = .ok hashed)
    (hcreate : env.create req.email hashed req.name = .ok user) :
    AuthController.register env req =
      ⟨201, .registered "User registered successfully" (env.generateToken user)
        user.withoutPassword⟩ := by
  simp [AuthController.register, he, hp, hn, hfind, hhash, hcreate]

/-- C16: for every stored user, the `user` object in the body of a successful login
(200), of a successful register (201) and of `getProfile` is the stored user with
the `password` property removed: it has no `password` property and carries the
same value as the stored user under every other property. -/
theorem returned_user_without_password (user : User) :
    (∀ (env : AuthEnv) (g : Guard) (req : LoginRequest) (now : Int),
      req.email ≠ "" → req.password ≠ "" → passesCredentialCheck env req user →
      (AuthController.login env g req now).1.status = 200 ∧
      (AuthController.login env g req now).1.body.user? = some user.withoutPassword) ∧
    (∀ (env : RegisterEnv) (req : RegisterRequest) (hashed : String),
      req.email ≠ "" → req.password ≠ "" → req.name ≠ "" →
      env.findByEmail req.email = .ok none →
      env.hashPassword req.password = .ok hashed →
      env.create req.email hashed req.name = .ok user →
      (AuthController.register env req).status = 201 ∧
      (AuthController.register env req).body.user? = some user.withoutPassword) ∧
    ((AuthController.getProfile user).status = 200 ∧
      (AuthController.getProfile user).body.user? = some user.withoutPassword) ∧
    user.withoutPassword.properties = omitProperty "password" user.properties ∧
    (∀ v, ("password", v) ∉ user.withoutPassword.properties) ∧
    (∀ k, k ≠ "password" →
      user.withoutPassword.properties.lookup k = user.properties.lookup k) := by
  refine ⟨?_, ?_, ⟨rfl, rfl⟩, withoutPassword_properties user, ?_, ?_⟩
  · intro env g req now he hp hs
    rw [login_success env g req now user he hp hs]
    exact ⟨rfl, rfl⟩
  · intro env req hashed he hp hn hfind hhash hcreate
    rw [register_success env req hashed user he hp hn hfind hhash hcreate]
    exact ⟨rfl, rfl⟩
  · intro v hv
    simp [PublicUser.properties] at hv
  · intro k hk
    have hk3 : (k == "password") = false := by
      simpa [beq_eq_false_iff_ne] using hk
    simp [PublicUser.properties, User.properties, User.withoutPassword, List.lookup, hk3]

/-- Witness for C16: registering `b@x.com` returns the created row without its
password hash. -/
theorem returned_user_without_password_witness :
    (AuthController.register demoRegisterEnv ⟨"b@x.com", "pw", "B"⟩).status = 201 ∧
    (AuthController.register demoRegisterEnv ⟨"b@x.com", "pw", "B"⟩).body.user? =
      some (User.withoutPassword ⟨"u2", "b@x.com", "h:pw", "B", "user", "t0", "t0"⟩) :=
  (returned_user_without_password ⟨"u2", "b@x.com", "h:pw", "B", "user", "t0", "t0"⟩).2.1
    demoRegisterEnv ⟨"b@x.com", "pw", "B"⟩ "h:pw" (by decide) (by decide) (by decide)
    rfl rfl rfl

/-! ## `authenticateToken`, `verifyToken` and `generateToken` -/

theorem authenticateToken_next_iff (jwt : JwtLib String) (envSecret : Option String)
    (findById : String → Except String (Option User)) (authHeader : Option String)
    (now : Int) (user : User) :
    authenticateToken jwt envSecret findById authHeader now = .next user ↔
      ∃ token decoded, headerToken authHeader = some token ∧ token ≠ "" ∧
        AuthService.verifyToken jwt envSecret now token = .ok decoded ∧
        findById decoded.id = .ok (some user) := by
  unfold authenticateToken
  cases htok : headerToken authHeader with
  | none => simp
  | some token =>
    by_cases hempty : token = ""
    · simp [hempty]
    · cases hver : AuthService.verifyToken jwt envSecret now token with
      | error err => simp [hempty, hver]
      | ok decoded =>
        cases hfind : findById decoded.id with
        | error err => simp [hempty, hver, hfind]
        | ok u =>
          cases u with
          | none => simp [hempty, hver, hfind]
          | some u0 => simp [hempty, hver, hfind]

theorem authenticateToken_respond_status (jwt : JwtLib String) (envSecret : Option String)
    (findById : String → Except String (Option User)) (authHeader : Option String)
    (now : Int) (res : Response)
    (h : authenticateToken jwt envSecret findById authHeader now = .respond res) :
    res.status = 401 := by
  unfold authenticateToken at h
  cases htok : headerToken authHeader with
  | none =>
    simp [htok] at h
    rw [← h]
  | some token =>
    by_cases hempty : token = ""
    · simp [htok, hempty] at h
      rw [← h]
    · cases hver : AuthService.verifyToken jwt envSecret now token with
      | error err =>
        simp [htok, hempty, hver] at h
        rw [← h]
      | ok decoded =>
        cases hfind : findById decoded.id with
        | error err =>
          simp [htok, hempty, hver, hfind] at h
          rw [← h]
        | ok u =>
          cases u with
          | none =>
            simp [htok, hempty, hver, hfind] at h
            rw [← h]
          | some u0 => simp [htok, hempty, hver, hfind] at h

/-- C17: `authenticateToken` calls `next()` with `req.user = user` exactly when the
`Authorization` header has a non-empty second space-separated piece that
`verifyToken` accepts and whose decoded `id` resolves to the stored `user`; every
response it sends has status 401, and it always does one of the two, so in every
other case it responds 401 without calling `next()`. -/
theorem authenticateToken_spec (jwt : JwtLib String) (envSecret : Option String)
    (findById : String → Except String (Option User)) (authHeader : Option String)
    (now : Int) :
    (∀ user, authenticateToken jwt envSecret findById authHeader now = .next user ↔
      ∃ token decoded, headerToken authHeader = some token ∧ token ≠ "" ∧
        AuthService.verifyToken jwt envSecret now token = .ok decoded ∧
        findById decoded.id = .ok (some user)) ∧
    (∀ res, authenticateToken jwt envSecret findById authHeader now = .respond res →
      res.status = 401) ∧
    ((¬ ∃ token decoded user, headerToken authHeader = some token ∧ token ≠ "" ∧
        AuthService.verifyToken jwt envSecret now token = .ok decoded ∧
        findById decoded.id = .ok (some user)) →
      ∃ res, authenticateToken jwt envSecret findById authHeader now = .respond res ∧
        res.status = 401) := by
  refine ⟨authenticateToken_next_iff jwt envSecret findById authHeader now,
    authenticateToken_respond_status jwt envSecret findById authHeader now, ?_⟩
  intro hno
  cases hout : authenticateToken jwt envSecret findById authHeader now with
  | respond res =>
    exact ⟨res, rfl, authenticateToken_respond_status jwt envSecret findById authHeader now
      res hout⟩
  | next user =>
    obtain ⟨token, decoded, h1, h2, h3, h4⟩ :=
      (authenticateToken_next_iff jwt envSecret findById authHeader now user).mp hout
    exact absurd ⟨token, decoded, user, h1, h2, h3, h4⟩ hno

/-- Witness for C17: the header `Bearer tok-u1` reaches the handler as user `u1`. -/
theorem authenticateToken_spec_witness :
    authenticateToken demoJwt none demoFindById (some "Bearer tok-u1") 1000 =
      .next ⟨"u1", "a@x.com", "s3cret", "A", "user", "", ""⟩ :=
  ((authenticateToken_spec demoJwt none demoFindById (some "Bearer tok-u1") 1000).1
    ⟨"u1", "a@x.com", "s3cret", "A", "user", "", ""⟩).mpr
    ⟨"tok-u1", ⟨"u1", "a@x.com", "user", 0, 86400000⟩, by decide, by decide, rfl, rfl⟩

/-- C18: whenever `jwt.verify` rejects two tokens, for whatever reasons,
`verifyToken` fails on both with the same error, `Invalid token`. -/
theorem verifyToken_failures_identical {τ : Type} (jwt : JwtLib τ)
    (envSecret : Option String) (now1 now2 : Int) (token1 token2 : τ) (e1 e2 : JwtError)
    (h1 : jwt.verify token1 (AuthService.JWT_SECRET envSecret) now1 = .error e1)
    (h2 : jwt.verify token2 (AuthService.JWT_SECRET envSecret) now2 = .error e2) :
    AuthService.verifyToken jwt envSecret now1 token1 = .error "Invalid token" ∧
    AuthService.verifyToken jwt envSecret now2 token2 = .error "Invalid token" ∧
    AuthService.verifyToken jwt envSecret now1 token1 =
      AuthService.verifyToken jwt envSecret now2 token2 := by
  simp [AuthService.verifyToken, h1, h2]

/-- Witness for C18: a token signed with another secret and a token past its expiry. -/
theorem verifyToken_failures_identical_witness :
    AuthService.verifyToken symJwt none 5000
        ⟨⟨"u1", "a@x.com", "user"⟩, "other-secret", 0, 86400000, true⟩ =
      .error "Invalid token" ∧
    AuthService.verifyToken symJwt none 90000000
        ⟨⟨"u1", "a@x.com", "user"⟩, "fallback-secret-for-development", 0, 86400000, true⟩ =
      .error "Invalid token" ∧
    AuthService.verifyToken symJwt none 5000
        ⟨⟨"u1", "a@x.com", "user"⟩, "other-secret", 0, 86400000, true⟩ =
      AuthService.verifyToken symJwt none 90000000
        ⟨⟨"u1", "a@x.com", "user"⟩, "fallback-secret-for-development", 0, 86400000, true⟩ :=
  verifyToken_failures_identical symJwt none 5000 90000000
    ⟨⟨"u1", "a@x.com", "user"⟩, "other-secret", 0, 86400000, true⟩
    ⟨⟨"u1", "a@x.com", "user"⟩, "fallback-secret-for-development", 0, 86400000, true⟩
    .invalidSignature .expired rfl rfl

theorem verifyToken_generateToken_eval (envSecret : Option String) (user : User)
    (t t2 : Int) :
    AuthService.verifyToken jsonwebtoken envSecret t2
        (AuthService.generateToken jsonwebtoken envSecret t user) =
      if t2 / 1000 ≥ t / 1000 + 86400 then .error "Invalid token"
      else .ok ⟨user.id, user.email, user.role, t / 1000, t / 1000 + 86400⟩ := by
  by_cases h : t2 / 1000 ≥ t / 1000 + 86400
  · simp [AuthService.verifyToken, AuthService.generateToken, jsonwebtoken, h]
  · simp [AuthService.verifyToken, AuthService.generateToken, jsonwebtoken, h]

/-- C19 (as stated, refuted): a token issued to the user `u1` at clock value 1999 and
verified at 86401000, which is 86399001 ms and so less than 24 hours later, is
rejected: `iat` is the whole second 1, `exp` is 86401, and the whole second at
verification is 86401. -/
theorem generateToken_verifyToken_last_second_fails :
    (1999 : Int) ≤ 86401000 ∧ (86401000 : Int) < 1999 + 24 * 60 * 60 * 1000 ∧
    AuthService.verifyToken jsonwebtoken none 86401000
        (AuthService.generateToken jsonwebtoken none 1999 demoUser) =
      .error "Invalid token" ∧
    ¬ ∃ decoded,
      AuthService.verifyToken jsonwebtoken none 86401000
        (AuthService.generateToken jsonwebtoken none 1999 demoUser) = .ok decoded ∧
      decoded.id = demoUser.id ∧ decoded.email = demoUser.email ∧
      decoded.role = demoUser.role := by
  have heval : AuthService.verifyToken jsonwebtoken none 86401000
      (AuthService.generateToken jsonwebtoken none 1999 demoUser) =
        .error "Invalid token" := by
    rw [verifyToken_generateToken_eval, if_pos (by decide)]
  refine ⟨by decide, by decide, heval, ?_⟩
  rintro ⟨decoded, hok, _⟩
  rw [heval] at hok
  cases hok

/-- C19 (amended): `verifyToken` applied to `generateToken(user)` succeeds and returns
a payload with the `id`, `email` and `role` of the user whenever the whole second
of the verification is less than 86400 seconds after the whole second of the
issuance; this is the case at every clock value up to 24 hours minus one second
after the issuance. -/
theorem generateToken_verifyToken_roundtrip (envSecret : Option String) (user : User)
    (t t2 : Int) :
    (t2 / 1000 < t / 1000 + 86400 →
      AuthService.verifyToken jsonwebtoken envSecret t2
          (AuthService.generateToken jsonwebtoken envSecret t user) =
        .ok ⟨user.id, user.email, user.role, t / 1000, t / 1000 + 86400⟩) ∧
    (t2 ≤ t + (24 * 60 * 60 * 1000 - 1000) →
      AuthService.verifyToken jsonwebtoken envSecret t2
          (AuthService.generateToken jsonwebtoken envSecret t user) =
        .ok ⟨user.id, user.email, user.role, t / 1000, t / 1000 + 86400⟩) := by
  have key : t2 / 1000 < t / 1000 + 86400 →
      AuthService.verifyToken jsonwebtoken envSecret t2
          (AuthService.generateToken jsonwebtoken envSecret t user) =
        .ok ⟨user.id, user.email, user.role, t / 1000, t / 1000 + 86400⟩ := by
    intro h
    have hn : ¬ t2 / 1000 ≥ t / 1000 + 86400 := by omega
    rw [verifyToken_generateToken_eval, if_neg hn]
  refine ⟨key, ?_⟩
  intro h
  exact key (by omega)

/-- Witness for C19 (amended): a token issued to an admin at 1999 and verified at
86400999, 24 hours minus one second later. -/
theorem generateToken_verifyToken_roundtrip_witness :
    AuthService.verifyToken jsonwebtoken (some "k") 86400999
        (AuthService.generateToken jsonwebtoken (some "k") 1999
          ⟨"u1", "a@x.com", "s3cret", "A", "admin", "", ""⟩) =
      .ok ⟨"u1", "a@x.com", "admin", 1999 / 1000, 1999 / 1000 + 86400⟩ :=
  (generateToken_verifyToken_roundtrip (some "k")
    ⟨"u1", "a@x.com", "s3cret", "A", "admin", "", ""⟩ 1999 86400999).2 (by decide)

/-! ## Lookups of ids that do not resolve -/

theorem filter_eq_nil_of_missing {α : Type} (table : List α) (p : α → Bool)
    (h : ∀ row ∈ table, p row = false) : table.filter p = [] := by
  rw [List.filter_eq_nil_iff]
  intro row hrow
  simp [h row hrow]

/-- An id that no row carries makes `BaseRepository.findById` throw. -/
theorem findById_missing {α : Type} (table : List α) (idOf : α → String) (id : String)
    (h : ∀ row ∈ table, idOf row ≠ id) :
    BaseRepository.findById table idOf id = .error { code := "PGRST116" } := by
  have hnil : table.filter (fun row => decide (idOf row = id)) = [] :=
    filter_eq_nil_of_missing table _ (fun row hrow => by simpa using h row hrow)
  simp [BaseRepository.findById, hnil, single]

/-- An email that no user carries makes `UserRepository.findByEmail` return `null`. -/
theorem findByEmail_missing (users : List User) (email : String)
    (h : ∀ u ∈ users, u.email ≠ email) :
    UserRepository.findByEmail users email = .ok none := by
  have hnil : users.filter (fun u => decide (u.email = email)) = [] :=
    filter_eq_nil_of_missing users _ (fun u hu => by simpa using h u hu)
  simp [UserRepository.findByEmail, hnil, single]

/-- With the repositories reading the tables through `BaseRepository.findById`, a
project id that does not resolve ends every project handler in the `catch` block:
status 500, nothing written. -/
theorem project_handlers_missing_id (db : Db) (user : User) (id : String)
    (body : ProjectUpdateRequest) (h : ∀ p ∈ db.projects, p.id ≠ id) :
    ProjectController.getById db.store user id =
      (⟨500, .error "Internal server error"⟩, []) ∧
    ProjectController.update db.store user id body =
      (⟨500, .error "Internal server error"⟩, []) ∧
    ProjectController.delete db.store user id =
      (⟨500, .error "Internal server error"⟩, []) ∧
    ProjectController.getIssues db.store user id =
      (⟨500, .error "Internal server error"⟩, []) := by
  have hfind : db.store.findProject id = .error { code := "PGRST116" } :=
    findById_missing db.projects Project.id id h
  simp [ProjectController.getById, ProjectController.update, ProjectController.delete,
    ProjectController.getIssues, hfind]

/-- The same for an issue id that does not resolve and the issue handlers. -/
theorem issue_handlers_missing_id (db : Db) (user : User) (id : String)
    (body : IssueUpdateRequest) (h : ∀ i ∈ db.issues, i.id ≠ id) :
    IssueController.getById db.store user id =
      (⟨500, .error "Internal server error"⟩, []) ∧
    IssueController.update db.store user id body =
      (⟨500, .error "Internal server error"⟩, []) ∧
    IssueController.delete db.store user id =
      (⟨500, .error "Internal server error"⟩, []) := by
  have hfind : db.store.findIssue id = .error { code := "PGRST116" } :=
    findById_missing db.issues Issue.id id h
  simp [IssueController.getById, IssueController.update, IssueController.delete, hfind]

/-- When a lookup does return `null`, the same handlers answer 404 before any
ownership test, whoever the user is. -/
theorem handlers_null_lookup (store : Store) (user : User) (id : String)
    (pbody : ProjectUpdateRequest) (ibody : IssueUpdateRequest)
    (hp : store.findProject id = .ok none) (hi : store.findIssue id = .ok none) :
    ProjectController.getById store user id = (⟨404, .error "Project not found"⟩, []) ∧
    ProjectController.update store user id pbody = (⟨404, .error "Project not found"⟩, []) ∧
    ProjectController.delete store user id = (⟨404, .error "Project not found"⟩, []) ∧
    ProjectController.getIssues store user id = (⟨404, .error "Project not found"⟩, []) ∧
    IssueController.getById store user id = (⟨404, .error "Issue not found"⟩, []) ∧
    IssueController.update store user id ibody = (⟨404, .error "Issue not found"⟩, []) ∧
    IssueController.delete store user id = (⟨404, .error "Issue not found"⟩, []) := by
  simp [ProjectController.getById, ProjectController.update, ProjectController.delete,
    ProjectController.getIssues, IssueController.getById, IssueController.update,
    IssueController.delete, hp, hi]

/-- C20 (evaluation of the code): on a database with no project and no issue, the
get, update and delete handlers of both controllers and `getIssues`, called by the
user `u1` for the ids `p1` and `i1`, all respond 500, not 404, whereas
`UserRepository.findByEmail` returns `null` for an email that does not resolve. -/
theorem missing_id_responds_500 :
    (ProjectController.getById emptyDb.store demoUser "p1").1.status = 500 ∧
    (ProjectController.update emptyDb.store demoUser "p1" ⟨some "n", none, none⟩).1.status
      = 500 ∧
    (ProjectController.delete emptyDb.store demoUser "p1").1.status = 500 ∧
    (ProjectController.getIssues emptyDb.store demoUser "p1").1.status = 500 ∧
    (IssueController.getById emptyDb.store demoUser "i1").1.status = 500 ∧
    (IssueController.update emptyDb.store demoUser "i1"
      ⟨some "t", none, none, none, none, none⟩).1.status = 500 ∧
    (IssueController.delete emptyDb.store demoUser "i1").1.status = 500 ∧
    BaseRepository.findById emptyDb.projects Project.id "p1" = .error ⟨"PGRST116"⟩ ∧
    UserRepository.findByEmail emptyDb.users "nobody@x.com" = .ok none := by
  refine ⟨by decide, by decide, by decide, by decide, by decide, by decide, by decide,
    rfl, rfl⟩

/-! ## Ownership tests of the project and issue handlers -/

/-- With the repositories reading the tables through `BaseRepository.findById`, an
existing issue whose `project_id` names no project ends `IssueController.getById`,
`update` and `delete` in the `catch` block: status 500, nothing written. -/
theorem issue_handlers_missing_project (db : Db) (user : User) (id : String)
    (issue : Issue) (body : IssueUpdateRequest)
    (hissue : db.store.findIssue id = .ok (some issue))
    (hproject : ∀ p ∈ db.projects, p.id ≠ issue.project_id) :
    IssueController.getById db.store user id =
      (⟨500, .error "Internal server error"⟩, []) ∧
    IssueController.update db.store user id body =
      (⟨500, .error "Internal server error"⟩, []) ∧
    IssueController.delete db.store user id =
      (⟨500, .error "Internal server error"⟩, []) := by
  have hfind : db.store.findProject issue.project_id = .error { code := "PGRST116" } :=
    findById_missing db.projects Project.id issue.project_id hproject
  simp [IssueController.getById, IssueController.update, IssueController.delete, hissue,
    hfind]

/-- C21 (evaluation of the code): the issue `i3` exists and its `project_id`,
`ghost`, names no project; `IssueController.getById`, `update` and `delete`, called
by the user `u1`, respond 500, not 404, and write nothing. -/
theorem missing_project_responds_500 :
    demoDb.store.findIssue "i3" = .ok (some issueI3) ∧
    (∀ p ∈ demoDb.projects, p.id ≠ issueI3.project_id) ∧
    IssueController.getById demoDb.store demoUser "i3" =
      (⟨500, .error "Internal server error"⟩, []) ∧
    IssueController.update demoDb.store demoUser "i3" ⟨some "t", none, none, none, none, none⟩
      = (⟨500, .error "Internal server error"⟩, []) ∧
    IssueController.delete demoDb.store demoUser "i3" =
      (⟨500, .error "Internal server error"⟩, []) ∧
    (IssueController.getById demoDb.store demoUser "i3").1.status ≠ 404 := by
  refine ⟨rfl, by decide, by decide, by decide, by decide, by decide⟩

/-- C22: for an existing project, `ProjectController.getById`, `update`, `delete` and
`getIssues` respond 200 for the owner (as soon as the repository call that follows
the ownership test returns), the two writing handlers issuing exactly their one
write; for every other user each of them responds 403 and issues no write; so a 200
is only ever sent to the owner. -/
theorem project_access_iff_owner (store : Store) (user : User) (id : String)
    (project : Project) (body : ProjectUpdateRequest)
    (hfind : store.findProject id = .ok (some project)) :
    (user.id = project.owner_id →
      ProjectController.getById store user id = (⟨200, .project project⟩, []) ∧
      (∀ updated,
        store.updateProject id
            ⟨orDefault body.name project.name, body.description.getD project.description,
              orDefault body.status project.status⟩ = .ok updated →
        ProjectController.update store user id body =
          (⟨200, .project updated⟩,
           [.updateProject id
              ⟨orDefault body.name project.name, body.description.getD project.description,
                orDefault body.status project.status⟩])) ∧
      (∀ done, store.deleteProject id = .ok done →
        ProjectController.delete store user id =
          (⟨200, .message "Project deleted successfully"⟩, [.deleteProject id])) ∧
      (∀ issues, store.issuesByProject id = .ok issues →
        ProjectController.getIssues store user id = (⟨200, .issues issues⟩, []))) ∧
    (user.id ≠ project.owner_id →
      ProjectController.getById store user id = (⟨403, .error "Access denied"⟩, []) ∧
      ProjectController.update store user id body = (⟨403, .error "Access denied"⟩, []) ∧
      ProjectController.delete store user id = (⟨403, .error "Access denied"⟩, []) ∧
      ProjectController.getIssues store user id = (⟨403, .error "Access denied"⟩, [])) ∧
    (((ProjectController.getById store user id).1.status = 200 ∨
       (ProjectController.update store user id body).1.status = 200 ∨
       (ProjectController.delete store user id).1.status = 200 ∨
       (ProjectController.getIssues store user id).1.status = 200) →
      user.id = project.owner_id) := by
  have hdenied : user.id ≠ project.owner_id →
      ProjectController.getById store user id = (⟨403, .error "Access denied"⟩, []) ∧
      ProjectController.update store user id body = (⟨403, .error "Access denied"⟩, []) ∧
      ProjectController.delete store user id = (⟨403, .error "Access denied"⟩, []) ∧
      ProjectController.getIssues store user id = (⟨403, .error "Access denied"⟩, []) := by
    intro hne
    have hne2 : ¬ project.owner_id = user.id := fun h => hne h.symm
    simp [ProjectController.getById, ProjectController.update, ProjectController.delete,
      ProjectController.getIssues, hfind, hne2]
  refine ⟨?_, hdenied, ?_⟩
  · intro hown
    refine ⟨?_, ?_, ?_, ?_⟩
    · simp [ProjectController.getById, hfind, hown]
    · intro updated hupd
      simp [ProjectController.update, hfind, hown, hupd]
    · intro done hdel
      simp [ProjectController.delete, hfind, hown, hdel]
    · intro issues hiss
      simp [ProjectController.getIssues, hfind, hown, hiss]
  · intro h200
    by_contra hne
    obtain ⟨h1, h2, h3, h4⟩ := hdenied hne
    rw [h1, h2, h3, h4] at h200
    simp at h200

/-- Witness for C22: the owner `u1` reads project `p1`. -/
theorem project_access_iff_owner_witness :
    ProjectController.getById demoDb.store demoUser "p1" = (⟨200, .project projectP1⟩, []) :=
  ((project_access_iff_owner demoDb.store demoUser "p1" projectP1 ⟨none, none, none⟩ rfl).1
    rfl).1

/-- C23: for an existing issue whose project exists, `IssueController.getById`,
`update` and `delete` respond 200 for the owner of that project (as soon as the
repository call that follows the ownership test returns), the two writing handlers
issuing exactly their one write; for every other user each of them responds 403 and
issues no write; so a 200 is only ever sent to the owner. -/
theorem issue_access_iff_owner (store : Store) (user : User) (id : String)
    (issue : Issue) (project : Project) (body : IssueUpdateRequest)
    (hissue : store.findIssue id = .ok (some issue))
    (hproject : store.findProject issue.project_id = .ok (some project)) :
    (user.id = project.owner_id →
      IssueController.getById store user id = (⟨200, .issue issue⟩, []) ∧
      (∀ updated,
        store.updateIssue id
            ⟨orDefault body.title issue.title, body.description.getD issue.description,
              orDefault body.status issue.status, orDefault body.priority issue.priority,
              body.assignee_id.getD issue.assignee_id, body.tags.getD issue.tags⟩
          = .ok updated →
        IssueController.update store user id body =
          (⟨200, .issue updated⟩,
           [.updateIssue id
              ⟨orDefault body.title issue.title, body.description.getD issue.description,
                orDefault body.status issue.status, orDefault body.priority issue.priority,
                body.assignee_id.getD issue.assignee_id, body.tags.getD issue.tags⟩])) ∧
      (∀ done, store.deleteIssue id = .ok done →
        IssueController.delete store user id =
          (⟨200, .message "Issue deleted successfully"⟩, [.deleteIssue id]))) ∧
    (user.id ≠ project.owner_id →
      IssueController.getById store user id = (⟨403, .error "Access denied"⟩, []) ∧
      IssueController.update store user id body = (⟨403, .error "Access denied"⟩, []) ∧
      IssueController.delete store user id = (⟨403, .error "Access denied"⟩, [])) ∧
    (((IssueController.getById store user id).1.status = 200 ∨
       (IssueController.update store user id body).1.status = 200 ∨
       (IssueController.delete store user id).1.status = 200) →
      user.id = project.owner_id) := by
  have hdenied : user.id ≠ project.owner_id →
      IssueController.getById store user id = (⟨403, .error "Access denied"⟩, []) ∧
      IssueController.update store user id body = (⟨403, .error "Access denied"⟩, []) ∧
      IssueController.delete store user id = (⟨403, .error "Access denied"⟩, []) := by
    intro hne
    have hne2 : ¬ project.owner_id = user.id := fun h => hne h.symm
    simp [IssueController.getById, IssueController.update, IssueController.delete, hissue,
      hproject, IssueController.deniedFor, hne2]
  refine ⟨?_, hdenied, ?_⟩
  · intro hown
    refine ⟨?_, ?_, ?_⟩
    · simp [IssueController.getById, hissue, hproject, IssueController.deniedFor, hown]
    · intro updated hupd
      simp [IssueController.update, hissue, hproject, IssueController.deniedFor, hown, hupd]
    · intro done hdel
      simp [IssueController.delete, hissue, hproject, IssueController.deniedFor, hown, hdel]
  · intro h200
    by_contra hne
    obtain ⟨h1, h2, h3⟩ := hdenied hne
    rw [h1, h2, h3] at h200
    simp at h200

/-- Witness for C23: the user `u2` asks for the issue `i1` of project `p1`, which
`u1` owns. -/
theorem issue_access_iff_owner_witness :
    IssueController.getById demoDb.store otherUser "i1" =
      (⟨403, .error "Access denied"⟩, []) :=
  ((issue_access_iff_owner demoDb.store otherUser "i1" issueI1 projectP1
    ⟨none, none, none, none, none, none⟩ rfl rfl).2.1 (by decide)).1

/-! ## Listing issues -/

theorem findById_ok_mem {α : Type} (table : List α) (idOf : α → String) (id : String)
    (row : α) (h : BaseRepository.findById table idOf id = .ok (some row)) :
    row ∈ table ∧ idOf row = id := by
  unfold BaseRepository.findById at h
  cases hf : table.filter (fun r => decide (idOf r = id)) with
  | nil => simp [hf, single] at h
  | cons r rest =>
    cases rest with
    | nil =>
      simp [hf, single] at h
      subst h
      have hmem : r ∈ table.filter (fun r => decide (idOf r = id)) := by simp [hf]
      simpa using List.mem_filter.mp hmem
    | cons r2 rest2 => simp [hf, single] at h

theorem mem_narrowByStatus (status : Option String) (issues : List Issue) (i : Issue)
    (h : i ∈ narrowByStatus status issues) : i ∈ issues := by
  unfold narrowByStatus at h
  cases status with
  | none => exact h
  | some s =>
    by_cases hs : s = ""
    · simpa [hs] using h
    · simp only [hs, if_false] at h
      exact (List.mem_filter.mp h).1

/-- The callback of the unfiltered listing never answers `true`, so the filter
either throws or keeps nothing. -/
theorem filterExcept_ownedByUser (user : User) (issues kept : List Issue)
    (h : filterExcept (ownedByUser user) issues = .ok kept) : kept = [] := by
  induction issues generalizing kept with
  | nil =>
    simp [filterExcept] at h
    exact h
  | cons i rest ih =>
    unfold filterExcept at h
    by_cases hp : i.project_id = ""
    · simp only [ownedByUser, hp, if_true] at h
      cases hrest : filterExcept (ownedByUser user) rest with
      | error e => simp [hrest] at h
      | ok l =>
        simp [hrest] at h
        rw [← h]
        exact ih l hrest
    · simp [ownedByUser, hp, Issue.project] at h

/-- The unfiltered listing throws as soon as one stored issue has a `project_id`. -/
theorem filterExcept_ownedByUser_throws (user : User) (issues : List Issue)
    (h : ∃ i ∈ issues, i.project_id ≠ "") :
    filterExcept (ownedByUser user) issues = .error { code := "TypeError" } := by
  induction issues with
  | nil => simp at h
  | cons i rest ih =>
    unfold filterExcept
    by_cases hp : i.project_id = ""
    · obtain ⟨j, hj, hjp⟩ := h
      have hrest : ∃ i ∈ rest, i.project_id ≠ "" := by
        rcases List.mem_cons.mp hj with hji | hjr
        · subst hji
          exact absurd hp hjp
        · exact ⟨j, hjr, hjp⟩
      simp [ownedByUser, hp, ih hrest]
    · simp [ownedByUser, hp, Issue.project]

theorem getAll_unfiltered_throws (store : Store) (user : User) (query : IssueQuery)
    (issues : List Issue) (hp : isFalsy query.project_id = true)
    (ha : isFalsy query.assignee_id = true) (hall : store.allIssues = .ok issues)
    (h : ∃ i ∈ issues, i.project_id ≠ "") :
    IssueController.getAll store user query =
      (⟨500, .error "Internal server error"⟩, []) := by
  simp [IssueController.getAll, hp, ha, hall, filterExcept_ownedByUser_throws user issues h]

/-- C24 (as stated, refuted): the user `u1` lists the issues assigned to `u1` and
gets 200 with the issue `i2`, which belongs to project `p2`, owned by `u2`. -/
theorem getAll_assignee_lists_foreign_project :
    (IssueController.getAll demoDb.store demoUser ⟨none, none, some "u1"⟩).1 =
      ⟨200, .issues [issueI2]⟩ ∧
    ¬ (∀ i ∈ [issueI2], ∃ p ∈ demoDb.projects, p.id = i.project_id ∧
        p.owner_id = demoUser.id) := by
  refine ⟨by decide, ?_⟩
  intro h
  obtain ⟨p, hp, hid, hown⟩ := h issueI2 (by simp)
  simp [demoDb] at hp
  rcases hp with hp | hp
  · subst hp
    exact absurd hid (by decide)
  · subst hp
    exact absurd hown (by decide)

/-- C24 (amended): in a 200 response of `IssueController.getAll`, on the `project_id`
path every issue belongs to the queried project, whose `owner_id` is the
principal's id; on the `assignee_id` path every issue is assigned to the principal,
whoever owns its project; with neither filter every issue belongs to a project
whose `owner_id` is the principal's id. -/
theorem getAll_listed_issues (db : Db) (user : User) (query : IssueQuery)
    (issues : List Issue)
    (h : (IssueController.getAll db.store user query).1 = ⟨200, .issues issues⟩) :
    (isFalsy query.project_id = false →
      ∀ i ∈ issues, i.project_id = query.project_id.getD "" ∧
        ∃ p ∈ db.projects, p.id = i.project_id ∧ p.owner_id = user.id) ∧
    (isFalsy query.project_id = true → isFalsy query.assignee_id = false →
      ∀ i ∈ issues, i.assignee_id = some user.id) ∧
    (isFalsy query.project_id = true → isFalsy query.assignee_id = true →
      ∀ i ∈ issues, ∃ p ∈ db.projects, p.id = i.project_id ∧ p.owner_id = user.id) := by
  refine ⟨?_, ?_, ?_⟩
  · intro hp i hi
    simp only [IssueController.getAll, hp, Bool.not_false, if_true] at h
    cases hfind : db.store.findProject (query.project_id.getD "") with
    | error e => simp [hfind] at h
    | ok found =>
      cases found with
      | none => simp [hfind] at h
      | some project =>
        by_cases hown : project.owner_id = user.id
        · rw [hfind] at h
          simp [hown, Db.store] at h
          obtain ⟨hmem, hid⟩ := findById_ok_mem db.projects Project.id _ project hfind
          have hi2 : i ∈ db.issues.filter
              (fun i => decide (i.project_id = query.project_id.getD "")) :=
            mem_narrowByStatus query.status _ i (by rw [h]; exact hi)
          have hpid : i.project_id = query.project_id.getD "" := by
            simpa using (List.mem_filter.mp hi2).2
          exact ⟨hpid, project, hmem, by rw [hpid, hid], hown⟩
        · simp [hfind, hown] at h
  · intro hp ha i hi
    simp only [IssueController.getAll, hp, ha, Bool.not_true, Bool.not_false, if_true] at h
    by_cases hown : query.assignee_id.getD "" = user.id
    · simp [hown, Db.store] at h
      have hi2 : i ∈ db.issues.filter (fun i => decide (i.assignee_id = some user.id)) :=
        mem_narrowByStatus query.status _ i (by rw [h]; exact hi)
      simpa using (List.mem_filter.mp hi2).2
    · simp [hown] at h
  · intro hp ha i hi
    simp only [IssueController.getAll, hp, ha, Bool.not_true] at h
    simp only [Db.store] at h
    cases hfil : filterExcept (ownedByUser user) db.issues with
    | error e => simp [hfil] at h
    | ok kept =>
      have hkept := filterExcept_ownedByUser user db.issues kept hfil
      subst hkept
      simp [hfil] at h
      have : i ∈ narrowByStatus query.status [] := by rw [h]; exact hi
      have := mem_narrowByStatus query.status [] i this
      simp at this

/-- Witness for C24 (amended): the listing of the issues assigned to `u1`. -/
theorem getAll_listed_issues_witness :
    issueI2.assignee_id = some demoUser.id :=
  (getAll_listed_issues demoDb demoUser ⟨none, none, some "u1"⟩ [issueI2]
    (by decide)).2.1 rfl rfl issueI2 (List.mem_cons_self issueI2 [])

/-- C25 (evaluation of the code): the database holds the issue `i1` of project `p1`,
owned by `u1`; `u1` lists the issues with no filter and gets 500, not 200 with `i1`. -/
theorem getAll_unfiltered_responds_500 :
    (IssueController.getAll demoDb.store demoUser ⟨none, none, none⟩).1 =
      ⟨500, .error "Internal server error"⟩ ∧
    issueI1 ∈ demoDb.issues ∧ issueI1.project_id = projectP1.id ∧
    projectP1 ∈ demoDb.projects ∧ projectP1.owner_id = demoUser.id := by
  refine ⟨by decide, by decide, rfl, by decide, rfl⟩

/-- C26 (as stated, refuted): the user `u1` sends `project_id = p1`, a project `u1`
owns, together with `assignee_id = u2`, and gets 200 with the issues of `p1`. -/
theorem getAll_foreign_assignee_with_project :
    ¬ ((IssueController.getAll demoDb.store demoUser ⟨some "p1", none, some "u2"⟩).1.status
        = 403) ∧
    (IssueController.getAll demoDb.store demoUser ⟨some "p1", none, some "u2"⟩).1 =
      ⟨200, .issues [issueI1]⟩ := by
  refine ⟨by decide, by decide⟩

/-- C26 (amended): a listing request without `project_id` whose `assignee_id` is
present and differs from the principal's id gets 403 and no issues, and nothing is
asked of the record store beyond that. -/
theorem getAll_foreign_assignee_denied (store : Store) (user : User) (query : IssueQuery)
    (assignee : String) (hp : isFalsy query.project_id = true)
    (ha : query.assignee_id = some assignee) (hne : assignee ≠ "")
    (hother : assignee ≠ user.id) :
    IssueController.getAll store user query = (⟨403, .error "Access denied"⟩, []) := by
  have ha2 : isFalsy query.assignee_id = false := by simp [isFalsy, ha, hne]
  unfold IssueController.getAll
  simp only [hp, ha2, Bool.not_true, Bool.not_false, if_true, if_false, Bool.false_eq_true]
  simp [ha, hother]

/-- Witness for C26 (amended): the user `u1` asks for the issues assigned to `u2`. -/
theorem getAll_foreign_assignee_denied_witness :
    IssueController.getAll demoDb.store demoUser ⟨none, none, some "u2"⟩ =
      (⟨403, .error "Access denied"⟩, []) :=
  getAll_foreign_assignee_denied demoDb.store demoUser ⟨none, none, some "u2"⟩ "u2"
    rfl rfl (by decide) (by decide)

/-! ## Creating an issue -/

theorem create_log_subset (store : Store) (classify : String → String → ClassifyOutcome)
    (user : User) (body : IssueCreateRequest) (data : IssueData)
    (h : StoreWrite.createIssue data ∈ (IssueController.create store classify user body).2) :
    isFalsy body.title = false ∧ isFalsy body.project_id = false ∧
      ∃ project, store.findProject (body.project_id.getD "") = .ok (some project) ∧
        project.owner_id = user.id := by
  unfold IssueController.create at h
  by_cases hreq : isFalsy body.title = true ∨ isFalsy body.project_id = true
  · simp [hreq] at h
  · have ht : isFalsy body.title = false := by
      cases hb : isFalsy body.title
      · rfl
      · exact absurd (Or.inl hb) hreq
    have hpid : isFalsy body.project_id = false := by
      cases hb : isFalsy body.project_id
      · rfl
      · exact absurd (Or.inr hb) hreq
    refine ⟨ht, hpid, ?_⟩
    simp only [hreq, if_false] at h
    cases hfind : store.findProject (body.project_id.getD "") with
    | error e => simp [hfind] at h
    | ok found =>
      cases found with
      | none => simp [hfind] at h
      | some project =>
        by_cases hown : project.owner_id = user.id
        · exact ⟨project, rfl, hown⟩
        · simp [hfind, hown] at h

/-- C27: `IssueController.create` responds 400 and writes nothing when `title` or
`project_id` is missing; otherwise, when the project exists and is owned by someone
else, it responds 403 and writes nothing; and whenever it issues a create to the
record store, `title` and `project_id` are present, the project exists and the
principal is its owner. -/
theorem create_guards (store : Store) (classify : String → String → ClassifyOutcome)
    (user : User) (body : IssueCreateRequest) :
    ((isFalsy body.title = true ∨ isFalsy body.project_id = true) →
      IssueController.create store classify user body =
        (⟨400, .error "Title and project_id are required"⟩, [])) ∧
    (∀ project, isFalsy body.title = false → isFalsy body.project_id = false →
      store.findProject (body.project_id.getD "") = .ok (some project) →
      project.owner_id ≠ user.id →
      IssueController.create store classify user body =
        (⟨403, .error "Access denied"⟩, [])) ∧
    (∀ data, StoreWrite.createIssue data ∈
        (IssueController.create store classify user body).2 →
      isFalsy body.title = false ∧ isFalsy body.project_id = false ∧
      ∃ project, store.findProject (body.project_id.getD "") = .ok (some project) ∧
        project.owner_id = user.id) := by
  refine ⟨?_, ?_, create_log_subset store classify user body⟩
  · intro h
    simp [IssueController.create, h]
  · intro project ht hpid hfind hown
    simp [IssueController.create, ht, hpid, hfind, hown]

/-- Witness for C27: the user `u1` tries to create an issue in project `p2`, which
`u2` owns. -/
theorem create_guards_witness :
    IssueController.create demoDb.store classifierDown demoUser
        ⟨some "T", none, some "p2", none, none⟩ =
      (⟨403, .error "Access denied"⟩, []) :=
  (create_guards demoDb.store classifierDown demoUser
    ⟨some "T", none, some "p2", none, none⟩).2.1 projectP2 rfl rfl rfl (by decide)

/-- C28: for an authorised create request, whatever the classification call comes to,
`IssueController.create` issues exactly one create to the record store and responds
201 with the created issue as soon as that create returns; the tags it stores are
the empty list when the call throws, the response is not ok, the body fails to
parse or the body has no tags, and exactly the returned tags otherwise. -/
theorem create_survives_classification (store : Store)
    (classify : String → String → ClassifyOutcome) (user : User)
    (body : IssueCreateRequest) (project : Project)
    (ht : isFalsy body.title = false) (hpid : isFalsy body.project_id = false)
    (hfind : store.findProject (body.project_id.getD "") = .ok (some project))
    (hown : project.owner_id = user.id) :
    ∃ data : IssueData,
      (IssueController.create store classify user body).2 = [.createIssue data] ∧
      (∀ issue, store.createIssue data = .ok issue →
        (IssueController.create store classify user body).1 = ⟨201, .issue issue⟩) ∧
      data.title = body.title.getD "" ∧ data.project_id = body.project_id.getD "" ∧
      data.reporter_id = user.id ∧
      (classify (body.title.getD "") (orDefault body.description "") = .throws →
        data.tags = []) ∧
      (classify (body.title.getD "") (orDefault body.description "") = .notOk →
        data.tags = []) ∧
      (classify (body.title.getD "") (orDefault body.description "") = .badJson →
        data.tags = []) ∧
      (classify (body.title.getD "") (orDefault body.description "") = .body none →
        data.tags = []) ∧
      (∀ tags, classify (body.title.getD "") (orDefault body.description "")
          = .body (some tags) → data.tags = tags) := by
  refine ⟨{ title := body.title.getD ""
            description := orDefault body.description ""
            project_id := body.project_id.getD ""
            assignee_id := if isFalsy body.assignee_id then none else body.assignee_id
            reporter_id := user.id
            priority := orDefault body.priority "medium"
            tags := classifiedTags
              (classify (body.title.getD "") (orDefault body.description "")) },
    ?_, ?_, rfl, rfl, rfl, ?_, ?_, ?_, ?_, ?_⟩
  · unfold IssueController.create
    simp only [ht, hpid, hfind, hown]
    cases store.createIssue _ <;> simp
  · intro issue hcreate
    unfold IssueController.create
    simp only [ht, hpid, hfind, hown]
    simp [hcreate]
  · intro hc
    simp [hc, classifiedTags]
  · intro hc
    simp [hc, classifiedTags]
  · intro hc
    simp [hc, classifiedTags]
  · intro hc
    simp [hc, classifiedTags]
  · intro tags hc
    simp [hc, classifiedTags]

/-- Witness for C28: the user `u1` creates an issue in project `p1` while the
classification service is down. -/
theorem create_survives_classification_witness :
    ∃ data : IssueData,
      (IssueController.create demoDb.store classifierDown demoUser
        ⟨some "T", none, some "p1", none, none⟩).2 = [.createIssue data] ∧
      (∀ issue, demoDb.store.createIssue data = .ok issue →
        (IssueController.create demoDb.store classifierDown demoUser
          ⟨some "T", none, some "p1", none, none⟩).1 = ⟨201, .issue issue⟩) ∧
      data.title = "T" ∧ data.project_id = "p1" ∧ data.reporter_id = "u1" ∧
      (classifierDown "T" "" = .throws → data.tags = []) ∧
      (classifierDown "T" "" = .notOk → data.tags = []) ∧
      (classifierDown "T" "" = .badJson → data.tags = []) ∧
      (classifierDown "T" "" = .body none → data.tags = []) ∧
      (∀ tags, classifierDown "T" "" = .body (some tags) → data.tags = tags) :=
  create_survives_classification demoDb.store classifierDown demoUser
    ⟨some "T", none, some "p1", none, none⟩ projectP1 rfl rfl rfl rfl

/-! ## Calls for one identity and the records of the others -/

theorem apply_other (g : Guard) (c : GuardCall) (b : String) (h : c.email ≠ b) :
    (c.apply g) b = g b := by
  have hb : b ≠ c.email := fun hbc => h hbc.symm
  cases c with
  | isLocked a now =>
    simp only [GuardCall.email] at hb
    simp only [GuardCall.apply, isLocked]
    cases hg : g a with
    | none => rfl
    | some rec =>
      by_cases hexp : now - rec.lockUntil > 0
      · simp only [hexp, if_true]
        exact Guard.delete_other g a b hb
      · simp only [hexp, if_false]
  | getRemainingLockTime a now => rfl
  | recordFailedAttempt a now =>
    simp only [GuardCall.email] at hb
    simp only [GuardCall.apply, recordFailedAttempt]
    exact Guard.set_other g a b _ hb
  | recordSuccessfulAttempt a =>
    simp only [GuardCall.email] at hb
    exact Guard.delete_other g a b hb
  | getAttemptInfo a now now2 =>
    simp only [GuardCall.email] at hb
    simp only [GuardCall.apply, getAttemptInfo]
    cases hg : g a with
    | none => rfl
    | some rec =>
      simp only [isLocked, hg]
      by_cases hexp : now - rec.lockUntil > 0
      · simp only [hexp, if_true]
        exact Guard.delete_other g a b hb
      · simp only [hexp, if_false]

/-- C30: for distinct identities `a` and `b`, each of `isLocked(a)`,
`getRemainingLockTime(a)`, `recordFailedAttempt(a)`, `recordSuccessfulAttempt(a)` and
`getAttemptInfo(a)`, at any clock values, leaves the record of `b` as it was:
present or absent, with the same `count` and `lockUntil`. -/
theorem guard_calls_isolated (g : Guard) (a b : String) (now now2 : Int) (h : a ≠ b) :
    (isLocked g a now).2 b = g b ∧
    ((GuardCall.getRemainingLockTime a now).apply g) b = g b ∧
    (recordFailedAttempt g a now).2 b = g b ∧
    (recordSuccessfulAttempt g a) b = g b ∧
    (getAttemptInfo g a now now2).2 b = g b :=
  ⟨apply_other g (.isLocked a now) b h, apply_other g (.getRemainingLockTime a now) b h,
   apply_other g (.recordFailedAttempt a now) b h,
   apply_other g (.recordSuccessfulAttempt a) b h,
   apply_other g (.getAttemptInfo a now now2) b h⟩

/-- Witness for C30: calls for `b@x.com` on a Map in which `a@x.com` is locked. -/
theorem guard_calls_isolated_witness :
    (isLocked lockedGuard "b@x.com" 200000).2 "a@x.com" = lockedGuard "a@x.com" ∧
    ((GuardCall.getRemainingLockTime "b@x.com" 200000).apply lockedGuard) "a@x.com" =
      lockedGuard "a@x.com" ∧
    (recordFailedAttempt lockedGuard "b@x.com" 200000).2 "a@x.com" = lockedGuard "a@x.com" ∧
    (recordSuccessfulAttempt lockedGuard "b@x.com") "a@x.com" = lockedGuard "a@x.com" ∧
    (getAttemptInfo lockedGuard "b@x.com" 200000 200001).2 "a@x.com" =
      lockedGuard "a@x.com" :=
  guard_calls_isolated lockedGuard "b@x.com" "a@x.com" 200000 200001 (by decide)

/-- Made one after another, `n` calls of `recordFailedAttempt` for one identity raise
its stored count by `n`. -/
theorem recordFailedAttempt_run_count (g : Guard) (e : String) (times : List Int) :
    (runCalls g (times.map (GuardCall.recordFailedAttempt e))).count e =
      g.count e + times.length := by
  induction times generalizing g with
  | nil => simp [runCalls]
  | cons t rest ih =>
    simp only [List.map_cons, runCalls, List.foldl_cons, List.length_cons]
    have hstep : (GuardCall.apply g (.recordFailedAttempt e t)).count e = g.count e + 1 := by
      cases hg : g e <;>
        simp [GuardCall.apply, recordFailedAttempt, Guard.count, Guard.set, hg]
    have := ih (GuardCall.apply g (.recordFailedAttempt e t))
    simp only [runCalls] at this
    rw [this, hstep]
    push_cast
    ring
